import Mathlib

/-!
# LM90 / ADM1032 hardware-monitoring driver (`kernel/chips/lm90.c`)

A shallow embedding of the driver.  C integers are mathematical integers with
explicit truncation where the C code stores into a narrower unsigned type
(`u8`, `u16`) and explicit reduction to the range of `long` where an
operation on a `long` can leave it (the shift in `TEMP2_TO_REG`).  The SMBus adapter is an answer function over the history of bus
operations, so a register may answer differently each time it is read; every
bus operation the driver issues is appended to a log.
-/

namespace LM90

/-! ## Machine integers -/

/-- Conversion of a C integer to `u8` (reduction modulo 2^8). -/
def u8 (x : Int) : Nat := (x % 256).toNat

/-- Conversion of a C integer to `u16` (reduction modulo 2^16). -/
def u16 (x : Int) : Nat := (x % 65536).toNat

/-! ## Kernel constants -/

/-- Kernel build constants used by the driver: the tick rate `HZ` and the
width of `unsigned long` (the type of `jiffies`).  `HZ * 2` is computed as an
`int` without overflow and `unsigned long` has at least 32 bits, so the
comparison at line 468 sees the exact product. -/
structure Kernel where
  HZ : Nat
  BITS_PER_LONG : Nat
  hz_int : HZ * 2 < 2 ^ 31
  long_bits : 32 ≤ BITS_PER_LONG

/-- Reduction of an integer to the range of a C `long` of `BITS_PER_LONG`
bits (two's complement): what is left in a `long` when an operation on
`long` operands goes past that range. -/
def Kernel.slong (K : Kernel) (x : Int) : Int :=
  (x + (2 ^ (K.BITS_PER_LONG - 1) : Nat)) % (2 ^ K.BITS_PER_LONG : Nat)
    - (2 ^ (K.BITS_PER_LONG - 1) : Nat)

/-! ## The LM90 registers (lines 65-98) -/

def LM90_REG_R_MAN_ID : Nat := 0xFE
def LM90_REG_R_CHIP_ID : Nat := 0xFF
def LM90_REG_R_CONFIG1 : Nat := 0x03
def LM90_REG_W_CONFIG1 : Nat := 0x09
def LM90_REG_R_CONFIG2 : Nat := 0xBF
def LM90_REG_W_CONFIG2 : Nat := 0xBF
def LM90_REG_R_CONVRATE : Nat := 0x04
def LM90_REG_W_CONVRATE : Nat := 0x0A
def LM90_REG_R_STATUS : Nat := 0x02
def LM90_REG_R_LOCAL_TEMP : Nat := 0x00
def LM90_REG_R_LOCAL_HIGH : Nat := 0x05
def LM90_REG_W_LOCAL_HIGH : Nat := 0x0B
def LM90_REG_R_LOCAL_LOW : Nat := 0x06
def LM90_REG_W_LOCAL_LOW : Nat := 0x0C
def LM90_REG_R_LOCAL_CRIT : Nat := 0x20
def LM90_REG_W_LOCAL_CRIT : Nat := 0x20
def LM90_REG_R_REMOTE_TEMPH : Nat := 0x01
def LM90_REG_R_REMOTE_TEMPL : Nat := 0x10
def LM90_REG_R_REMOTE_HIGHH : Nat := 0x07
def LM90_REG_W_REMOTE_HIGHH : Nat := 0x0D
def LM90_REG_R_REMOTE_HIGHL : Nat := 0x13
def LM90_REG_W_REMOTE_HIGHL : Nat := 0x13
def LM90_REG_R_REMOTE_LOWH : Nat := 0x08
def LM90_REG_W_REMOTE_LOWH : Nat := 0x0E
def LM90_REG_R_REMOTE_LOWL : Nat := 0x14
def LM90_REG_W_REMOTE_LOWL : Nat := 0x14
def LM90_REG_R_REMOTE_CRIT : Nat := 0x19
def LM90_REG_W_REMOTE_CRIT : Nat := 0x19
def LM90_REG_R_TCRIT_HYST : Nat := 0x21
def LM90_REG_W_TCRIT_HYST : Nat := 0x21

/-! ## Conversions and initial values (lines 100-119)

The macros are untyped; their operands are promoted to `int` / `long`, so each
takes and returns an integer.  `>> 8` on a negative `int` is the arithmetic
shift (floor division by 256).  Only `val << 8` in `TEMP2_TO_REG` can leave the
range of its type; the other operations stay inside it for every operand the
driver passes. -/

/-- Macro `TEMP1_FROM_REG(val)`: `(val & 0x80 ? val-0x100 : val)`. -/
def TEMP1_FROM_REG (val : Int) : Int :=
  if Int.land val 0x80 ≠ 0 then val - 0x100 else val

/-- Macro `TEMP1_TO_REG(val)`: `(val < 0 ? val+0x100 : val)`. -/
def TEMP1_TO_REG (val : Int) : Int :=
  if val < 0 then val + 0x100 else val

/-- Macro `TEMP2_FROM_REG(val)`:
`(((val & 0x8000 ? val-0x10000 : val) * 10 + 128) >> 8)`. -/
def TEMP2_FROM_REG (val : Int) : Int :=
  ((if Int.land val 0x8000 ≠ 0 then val - 0x10000 else val) * 10 + 128) >>> (8 : Nat)

/-- Macro `TEMP2_TO_REG(val)`:
`(((val << 8) / 10 + (val < 0 ? 0x10000 : 0)) & 0xFFE0)`.  The operand is a
`long` (`results[i]`), so `val << 8` is `val * 256` reduced to the range of
`long`; the C division truncates toward zero, and the sum that follows
stays inside the range of `long`. -/
def TEMP2_TO_REG (K : Kernel) (val : Int) : Int :=
  Int.land (Int.tdiv (K.slong (val * 256)) 10 + (if val < 0 then 0x10000 else 0)) 0xFFE0

/-- Macro `HYST_TO_REG(val)`: `(val < 0 ? 0 : val > 31 ? 31 : val)`. -/
def HYST_TO_REG (val : Int) : Int :=
  if val < 0 then 0 else if val > 31 then 31 else val

def LM90_INIT_LOW : Int := 5
def LM90_INIT_HIGH : Int := 70
def LM90_INIT_CRIT : Int := 85
def LM90_INIT_HYST : Int := 10

/-! ## Bus access -/

/-- One SMBus byte-data transfer issued by the driver. -/
inductive BusOp where
  | read (reg : Nat) (ret : Int)
  | write (reg : Nat) (value : Nat)
  deriving DecidableEq

/-- The adapter and the device behind it: the `s32` result of a byte read of
register `reg`, given every transfer made so far.  A negative result is a
failed transfer. -/
abbrev Bus := List BusOp → Nat → Int

/-- A device whose registers hold fixed bytes: register `r` always reads
`regs r`. -/
def regFile (regs : Nat → Nat) : Bus := fun _ reg => (regs reg : Int)

/-- Modelled on `i2c_smbus_read_byte_data(client, command)`: the value the
bus answers and the extended log. -/
def i2c_smbus_read_byte_data (bus : Bus) (log : List BusOp) (command : Nat) :
    Int × List BusOp :=
  (bus log command, log ++ [BusOp.read command (bus log command)])

/-- Modelled on `i2c_smbus_write_byte_data(client, command, value)`; the
`value` parameter is a `u8`.  The driver never looks at the result. -/
def i2c_smbus_write_byte_data (log : List BusOp) (command : Nat) (value : Int) :
    List BusOp :=
  log ++ [BusOp.write command (u8 value)]

/-! ## Client data (lines 160-174) -/

/-- Record `struct lm90_data` (the semaphore is not represented: calls are
serialised). -/
structure lm90_data where
  sysctl_id : Int
  valid : Nat
  last_updated : Nat
  local_temp : Nat
  local_high : Nat
  local_low : Nat
  remote_temp : Nat
  remote_high : Nat
  remote_low : Nat
  local_crit : Nat
  remote_crit : Nat
  hyst : Nat
  alarms : Nat
  deriving DecidableEq

/-- A client: its private data and the log of bus transfers made for it. -/
structure Client where
  data : lm90_data
  log : List BusOp
  deriving DecidableEq

/-- Subtraction of two `unsigned long` values (wraps modulo 2^BITS_PER_LONG). -/
def Kernel.usub (K : Kernel) (a b : Nat) : Nat :=
  (((a : Int) - (b : Int)) % (2 ^ K.BITS_PER_LONG : Nat)).toNat

/-- The condition at lines 468-469:
`(jiffies - data->last_updated > HZ * 2) || (jiffies < data->last_updated)
|| !data->valid`. -/
def needs_update (K : Kernel) (jiffies : Nat) (data : lm90_data) : Bool :=
  decide (K.usub jiffies data.last_updated > K.HZ * 2)
    || decide (jiffies < data.last_updated) || decide (data.valid = 0)

/-- Function `lm90_update_client` (lines 462-537).  `jiffies` is the clock
value during the call.  The operands of `+` at lines 518-523 are read left
to right. -/
def lm90_update_client (K : Kernel) (bus : Bus) (jiffies : Nat) (client : Client) :
    Client :=
  let data := client.data
  if needs_update K jiffies data then
    let r := i2c_smbus_read_byte_data bus client.log LM90_REG_R_LOCAL_TEMP
    let data := { data with local_temp := u8 r.1 }
    let r := i2c_smbus_read_byte_data bus r.2 LM90_REG_R_LOCAL_HIGH
    let data := { data with local_high := u8 r.1 }
    let r := i2c_smbus_read_byte_data bus r.2 LM90_REG_R_LOCAL_LOW
    let data := { data with local_low := u8 r.1 }
    let r := i2c_smbus_read_byte_data bus r.2 LM90_REG_R_LOCAL_CRIT
    let data := { data with local_crit := u8 r.1 }
    let r := i2c_smbus_read_byte_data bus r.2 LM90_REG_R_REMOTE_TEMPH
    let oldh := u8 r.1
    let r := i2c_smbus_read_byte_data bus r.2 LM90_REG_R_REMOTE_TEMPL
    let data := { data with remote_temp := u16 r.1 }
    let r := i2c_smbus_read_byte_data bus r.2 LM90_REG_R_REMOTE_TEMPH
    let newh := u8 r.1
    let r := if newh ≠ oldh then
        i2c_smbus_read_byte_data bus r.2 LM90_REG_R_REMOTE_TEMPL
      else r
    let data := if newh ≠ oldh then { data with remote_temp := u16 r.1 } else data
    let data := { data with remote_temp := (data.remote_temp ||| (newh <<< 8)) % 65536 }
    let rh := i2c_smbus_read_byte_data bus r.2 LM90_REG_R_REMOTE_HIGHH
    let r := i2c_smbus_read_byte_data bus rh.2 LM90_REG_R_REMOTE_HIGHL
    let data := { data with remote_high := u16 (rh.1 * 256 + r.1) }
    let rh := i2c_smbus_read_byte_data bus r.2 LM90_REG_R_REMOTE_LOWH
    let r := i2c_smbus_read_byte_data bus rh.2 LM90_REG_R_REMOTE_LOWL
    let data := { data with remote_low := u16 (rh.1 * 256 + r.1) }
    let r := i2c_smbus_read_byte_data bus r.2 LM90_REG_R_REMOTE_CRIT
    let data := { data with remote_crit := u8 r.1 }
    let r := i2c_smbus_read_byte_data bus r.2 LM90_REG_R_TCRIT_HYST
    let data := { data with hyst := u8 r.1 }
    let r := i2c_smbus_read_byte_data bus r.2 LM90_REG_R_STATUS
    let data := { data with alarms := u16 r.1 }
    let data := { data with last_updated := jiffies }
    let data := { data with valid := 1 }
    { data := data, log := r.2 }
  else
    client

/-! ## Initialisation (lines 406-443) -/

/-- Function `lm90_init_client` (lines 406-443): only bus transfers, the
client data is not touched. -/
def lm90_init_client (bus : Bus) (client : Client) : Client :=
  let log := i2c_smbus_write_byte_data client.log LM90_REG_W_LOCAL_HIGH
    (TEMP1_TO_REG LM90_INIT_HIGH)
  let log := i2c_smbus_write_byte_data log LM90_REG_W_LOCAL_LOW
    (TEMP1_TO_REG LM90_INIT_LOW)
  let log := i2c_smbus_write_byte_data log LM90_REG_W_LOCAL_CRIT
    (TEMP1_TO_REG LM90_INIT_CRIT)
  let log := i2c_smbus_write_byte_data log LM90_REG_W_REMOTE_HIGHH
    (TEMP1_TO_REG LM90_INIT_HIGH)
  let log := i2c_smbus_write_byte_data log LM90_REG_W_REMOTE_HIGHL 0
  let log := i2c_smbus_write_byte_data log LM90_REG_W_REMOTE_LOWH
    (TEMP1_TO_REG LM90_INIT_LOW)
  let log := i2c_smbus_write_byte_data log LM90_REG_W_REMOTE_LOWL 0
  let log := i2c_smbus_write_byte_data log LM90_REG_W_REMOTE_CRIT
    (TEMP1_TO_REG LM90_INIT_CRIT)
  let log := i2c_smbus_write_byte_data log LM90_REG_W_TCRIT_HYST
    (HYST_TO_REG LM90_INIT_HYST)
  let log := i2c_smbus_write_byte_data log LM90_REG_W_CONVRATE 5
  let r := i2c_smbus_read_byte_data bus log LM90_REG_R_CONFIG1
  let config := u8 r.1
  if config &&& 0x40 ≠ 0 then
    let log := i2c_smbus_write_byte_data r.2 LM90_REG_W_CONFIG1
      ((config &&& 0xBF : Nat) : Int)
    { client with log := log }
  else
    { client with log := r.2 }

/-! ## Detection (lines 238-404) -/

/-- Modelled from the spec: the chip kinds declared by
`SENSORS_INSMOD_2(lm90, adm1032)`, whose header is not part of the sources.
The spec has two variants; the comment at lines 284-293 makes a requested
kind positive, zero meaning a forced load without a kind. -/
def lm90 : Int := 1

/-- Modelled from the spec: second chip kind of
`SENSORS_INSMOD_2(lm90, adm1032)` (see `lm90`). -/
def adm1032 : Int := 2

/-- Errno value `ENOMEM`. -/
def ENOMEM : Int := 12

/-- What the surrounding kernel answers during `lm90_detect`: the adapter's
functionality check, the memory `kmalloc` hands out (`none` when it fails; the
content of fresh memory is arbitrary), and the results of `i2c_attach_client`
and `i2c_register_entry`. -/
structure Host where
  i2c_check_functionality : Bool
  kmalloc : Option lm90_data
  i2c_attach_client : Int
  i2c_register_entry : Int

/-- Outcome of `lm90_detect`: its return value, the final value of the local
`kind`, the names chosen, the data of the client left registered (`none` when
no client was allocated or it was freed), the instance counter and the bus
log. -/
structure DetectResult where
  ret : Int
  kind : Int
  type_name : String
  client_name : String
  client : Option lm90_data
  lm90_id : Nat
  log : List BusOp

/-- The identification block of `lm90_detect` (lines 312-332): the new value
of `kind` and the bus log.  `&&` evaluates left to right and stops at the
first false operand, so the third read is made only for a chip id in range. -/
def lm90_identify (bus : Bus) (log : List BusOp) (kind : Int)
    (reg_config1 reg_convrate : Nat) : Int × List BusOp :=
  if kind ≤ 0 then
    let r := i2c_smbus_read_byte_data bus log LM90_REG_R_MAN_ID
    let man_id := u8 r.1
    let r := i2c_smbus_read_byte_data bus r.2 LM90_REG_R_CHIP_ID
    let chip_id := u8 r.1
    if man_id = 0x01 then
      if chip_id ≥ 0x21 ∧ chip_id < 0x30 then
        let r := i2c_smbus_read_byte_data bus r.2 (LM90_REG_R_CONFIG2 &&& 0xF8)
        if r.1 = 0x00 ∧ reg_convrate ≤ 0x09 then (lm90, r.2) else (kind, r.2)
      else (kind, r.2)
    else if man_id = 0x41 then
      if chip_id &&& 0xF0 = 0x40 ∧ reg_config1 &&& 0x3F = 0x00 then (adm1032, r.2)
      else (kind, r.2)
    else (kind, r.2)
  else (kind, log)

/-- Function `lm90_detect` (lines 238-404), built without `DEBUG`.  `log` and
`lm90_id` are the bus log and the instance counter on entry. -/
def lm90_detect (host : Host) (bus : Bus) (log : List BusOp) (lm90_id : Nat)
    (kind : Int) : DetectResult :=
  let err : Int := 0
  if ¬ host.i2c_check_functionality then
    ⟨0, kind, "", "", none, lm90_id, log⟩
  else
    match host.kmalloc with
    | none => ⟨-ENOMEM, kind, "", "", none, lm90_id, log⟩
    | some data =>
      let r := i2c_smbus_read_byte_data bus log LM90_REG_R_CONFIG1
      let reg_config1 := u8 r.1
      let r := i2c_smbus_read_byte_data bus r.2 LM90_REG_R_CONVRATE
      let reg_convrate := u8 r.1
      if kind < 0 ∧ (reg_config1 &&& 0x2A ≠ 0x00 ∨ reg_convrate > 0x0A) then
        ⟨err, kind, "", "", none, lm90_id, r.2⟩
      else
        let id := lm90_identify bus r.2 kind reg_config1 reg_convrate
        let kind := id.1
        if kind ≤ 0 then
          ⟨err, kind, "", "", none, lm90_id, id.2⟩
        else if kind ≠ lm90 ∧ kind ≠ adm1032 then
          ⟨err, kind, "", "", none, lm90_id, id.2⟩
        else
          let type_name := if kind = lm90 then "lm90" else "adm1032"
          let client_name := if kind = lm90 then "LM90 chip" else "ADM1032 chip"
          let lm90_id := lm90_id + 1
          let data := { data with valid := 0 }
          let err := host.i2c_attach_client
          if err ≠ 0 then
            ⟨err, kind, type_name, client_name, none, lm90_id, id.2⟩
          else
            let err := host.i2c_register_entry
            if err < 0 then
              ⟨err, kind, type_name, client_name, none, lm90_id, id.2⟩
            else
              let data := { data with sysctl_id := err }
              let client := lm90_init_client bus ⟨data, id.2⟩
              ⟨0, kind, type_name, client_name, some client.data, lm90_id, client.log⟩

/-! ## Accessors (lines 539-692) -/

/-- Modelled from the spec: operation code `SENSORS_PROC_REAL_INFO` of the
host framework, whose header is not part of the sources; the three codes
select the magnitude query, the read and the write of an accessor (spec 4.4). -/
def SENSORS_PROC_REAL_INFO : Int := 1

/-- Modelled from the spec: operation code `SENSORS_PROC_REAL_READ` (see
`SENSORS_PROC_REAL_INFO`). -/
def SENSORS_PROC_REAL_READ : Int := 2

/-- Modelled from the spec: operation code `SENSORS_PROC_REAL_WRITE` (see
`SENSORS_PROC_REAL_INFO`). -/
def SENSORS_PROC_REAL_WRITE : Int := 3

/-- What an accessor leaves behind: the client, `*nrels_mag` and the
`results` array. -/
structure ProcResult where
  client : Client
  nrels_mag : Int
  results : Nat → Int

/-- Function `lm90_local_temp` (lines 539-569). -/
def lm90_local_temp (K : Kernel) (bus : Bus) (jiffies : Nat) (client : Client)
    (operation : Int) (nrels_mag : Int) (results : Nat → Int) : ProcResult :=
  if operation = SENSORS_PROC_REAL_INFO then
    ⟨client, 0, results⟩
  else if operation = SENSORS_PROC_REAL_READ then
    let client := lm90_update_client K bus jiffies client
    let results := Function.update results 0 (TEMP1_FROM_REG client.data.local_high)
    let results := Function.update results 1 (TEMP1_FROM_REG client.data.local_low)
    let results := Function.update results 2 (TEMP1_FROM_REG client.data.local_temp)
    ⟨client, 3, results⟩
  else if operation = SENSORS_PROC_REAL_WRITE then
    let client :=
      if nrels_mag ≥ 1 then
        let data := { client.data with local_high := u8 (TEMP1_TO_REG (results 0)) }
        ⟨data, i2c_smbus_write_byte_data client.log LM90_REG_W_LOCAL_HIGH data.local_high⟩
      else client
    let client :=
      if nrels_mag ≥ 2 then
        let data := { client.data with local_low := u8 (TEMP1_TO_REG (results 1)) }
        ⟨data, i2c_smbus_write_byte_data client.log LM90_REG_W_LOCAL_LOW data.local_low⟩
      else client
    ⟨client, nrels_mag, results⟩
  else
    ⟨client, nrels_mag, results⟩

/-- Function `lm90_remote_temp` (lines 571-605). -/
def lm90_remote_temp (K : Kernel) (bus : Bus) (jiffies : Nat) (client : Client)
    (operation : Int) (nrels_mag : Int) (results : Nat → Int) : ProcResult :=
  if operation = SENSORS_PROC_REAL_INFO then
    ⟨client, 1, results⟩
  else if operation = SENSORS_PROC_REAL_READ then
    let client := lm90_update_client K bus jiffies client
    let results := Function.update results 0 (TEMP2_FROM_REG client.data.remote_high)
    let results := Function.update results 1 (TEMP2_FROM_REG client.data.remote_low)
    let results := Function.update results 2 (TEMP2_FROM_REG client.data.remote_temp)
    ⟨client, 3, results⟩
  else if operation = SENSORS_PROC_REAL_WRITE then
    let client :=
      if nrels_mag ≥ 1 then
        let data := { client.data with remote_high := u16 (TEMP2_TO_REG K (results 0)) }
        let log := i2c_smbus_write_byte_data client.log LM90_REG_W_REMOTE_HIGHH
          ((data.remote_high >>> 8 : Nat) : Int)
        let log := i2c_smbus_write_byte_data log LM90_REG_W_REMOTE_HIGHL
          ((data.remote_high &&& 0xFF : Nat) : Int)
        ⟨data, log⟩
      else client
    let client :=
      if nrels_mag ≥ 2 then
        let data := { client.data with remote_low := u16 (TEMP2_TO_REG K (results 1)) }
        let log := i2c_smbus_write_byte_data client.log LM90_REG_W_REMOTE_LOWH
          ((data.remote_low >>> 8 : Nat) : Int)
        let log := i2c_smbus_write_byte_data log LM90_REG_W_REMOTE_LOWL
          ((data.remote_low &&& 0xFF : Nat) : Int)
        ⟨data, log⟩
      else client
    ⟨client, nrels_mag, results⟩
  else
    ⟨client, nrels_mag, results⟩

/-- Function `lm90_local_tcrit` (lines 607-629). -/
def lm90_local_tcrit (K : Kernel) (bus : Bus) (jiffies : Nat) (client : Client)
    (operation : Int) (nrels_mag : Int) (results : Nat → Int) : ProcResult :=
  if operation = SENSORS_PROC_REAL_INFO then
    ⟨client, 0, results⟩
  else if operation = SENSORS_PROC_REAL_READ then
    let client := lm90_update_client K bus jiffies client
    ⟨client, 1, Function.update results 0 (TEMP1_FROM_REG client.data.local_crit)⟩
  else if operation = SENSORS_PROC_REAL_WRITE then
    if nrels_mag ≥ 1 then
      let data := { client.data with local_crit := u8 (TEMP1_TO_REG (results 0)) }
      ⟨⟨data, i2c_smbus_write_byte_data client.log LM90_REG_W_LOCAL_CRIT data.local_crit⟩,
        nrels_mag, results⟩
    else ⟨client, nrels_mag, results⟩
  else
    ⟨client, nrels_mag, results⟩

/-- Function `lm90_remote_tcrit` (lines 631-653). -/
def lm90_remote_tcrit (K : Kernel) (bus : Bus) (jiffies : Nat) (client : Client)
    (operation : Int) (nrels_mag : Int) (results : Nat → Int) : ProcResult :=
  if operation = SENSORS_PROC_REAL_INFO then
    ⟨client, 0, results⟩
  else if operation = SENSORS_PROC_REAL_READ then
    let client := lm90_update_client K bus jiffies client
    ⟨client, 1, Function.update results 0 (TEMP1_FROM_REG client.data.remote_crit)⟩
  else if operation = SENSORS_PROC_REAL_WRITE then
    if nrels_mag ≥ 1 then
      let data := { client.data with remote_crit := u8 (TEMP1_TO_REG (results 0)) }
      ⟨⟨data, i2c_smbus_write_byte_data client.log LM90_REG_W_REMOTE_CRIT data.remote_crit⟩,
        nrels_mag, results⟩
    else ⟨client, nrels_mag, results⟩
  else
    ⟨client, nrels_mag, results⟩

/-- Function `lm90_hyst` (lines 655-677). -/
def lm90_hyst (K : Kernel) (bus : Bus) (jiffies : Nat) (client : Client)
    (operation : Int) (nrels_mag : Int) (results : Nat → Int) : ProcResult :=
  if operation = SENSORS_PROC_REAL_INFO then
    ⟨client, 0, results⟩
  else if operation = SENSORS_PROC_REAL_READ then
    let client := lm90_update_client K bus jiffies client
    ⟨client, 1, Function.update results 0 (TEMP1_FROM_REG client.data.hyst)⟩
  else if operation = SENSORS_PROC_REAL_WRITE then
    if nrels_mag ≥ 1 then
      let data := { client.data with hyst := u8 (HYST_TO_REG (results 0)) }
      ⟨⟨data, i2c_smbus_write_byte_data client.log LM90_REG_W_TCRIT_HYST data.hyst⟩,
        nrels_mag, results⟩
    else ⟨client, nrels_mag, results⟩
  else
    ⟨client, nrels_mag, results⟩

/-- Function `lm90_alarms` (lines 679-692). -/
def lm90_alarms (K : Kernel) (bus : Bus) (jiffies : Nat) (client : Client)
    (operation : Int) (nrels_mag : Int) (results : Nat → Int) : ProcResult :=
  if operation = SENSORS_PROC_REAL_INFO then
    ⟨client, 0, results⟩
  else if operation = SENSORS_PROC_REAL_READ then
    let client := lm90_update_client K bus jiffies client
    ⟨client, 1, Function.update results 0 client.data.alarms⟩
  else
    ⟨client, nrels_mag, results⟩

/-! ## Vocabulary of the statements -/

/-- The register a transfer addresses. -/
def BusOp.reg : BusOp → Nat
  | BusOp.read reg _ => reg
  | BusOp.write reg _ => reg

/-- Whether a transfer is a read. -/
def BusOp.isRead : BusOp → Bool
  | BusOp.read _ _ => true
  | BusOp.write _ _ => false

/-- The cache may be served as it is at clock value `now`: it is valid, the
clock has not moved backward, and at most two seconds have passed since the
last refresh. -/
def cache_fresh (K : Kernel) (now : Nat) (data : lm90_data) : Prop :=
  data.valid ≠ 0 ∧ data.last_updated ≤ now ∧ now - data.last_updated ≤ 2 * K.HZ

instance (K : Kernel) (now : Nat) (data : lm90_data) : Decidable (cache_fresh K now data) := by
  unfold cache_fresh; infer_instance

/-! ## Concrete scenarios -/

/-- A 32-bit kernel ticking at 100 Hz. -/
def kernel_100 : Kernel := ⟨100, 32, by decide, by decide⟩

/-- Client data never refreshed, every field zero. -/
def blank_data : lm90_data := ⟨0, 0, 0, 0, 0, 0, 0, 0, 0, 0, 0, 0, 0⟩

/-- Client data refreshed at clock value 5. -/
def fresh_data : lm90_data := { blank_data with valid := 1, last_updated := 5 }

/-- A device that finishes a conversion between the two reads of the remote
temperature: the high byte reads 0x02 and then 0x03, the low byte 0x40 and
then 0x77; every other register reads zero. -/
def torn_bus : Bus := fun log reg =>
  if reg = 0x01 then (if log.length < 5 then 0x02 else 0x03)
  else if reg = 0x10 then (if log.length < 6 then 0x40 else 0x77)
  else 0

/-- A kernel in which every service `lm90_detect` asks for succeeds. -/
def host_ok : Host := ⟨true, some blank_data, 0, 42⟩

/-- An LM90 signature (manufacturer 0x01, chip id 0x21, conversion rate 0x09,
both configuration registers zero) on a device whose register 0xB8 reads
0x01. -/
def regs_lm90_b8 : Nat → Nat := fun r =>
  if r = 0xFE then 0x01 else if r = 0xFF then 0x21 else if r = 0x04 then 0x09
  else if r = 0xB8 then 0x01 else 0

/-- An ADM1032 signature: manufacturer 0x41, chip id 0x41, every other
register zero. -/
def regs_adm1032 : Nat → Nat := fun r =>
  if r = 0xFE then 0x41 else if r = 0xFF then 0x41 else 0

/-- A device of an unknown manufacturer (id 0x55), every other register zero. -/
def regs_unknown : Nat → Nat := fun r => if r = 0xFE then 0x55 else 0

/-- A device whose configuration register has bit 1 set (0x02), with an
ADM1032 signature otherwise. -/
def regs_gate_fail : Nat → Nat := fun r =>
  if r = 0x03 then 0x02 else if r = 0xFE then 0x41 else if r = 0xFF then 0x41 else 0

/-- The value of a 16-bit register read as a two's-complement number. -/
def signed16 (r : Nat) : Int := if r < 32768 then (r : Int) else (r : Int) - 65536

/-- A client whose cache holds the initial limits (high 70, low 5) in both
channels. -/
def limits_data : lm90_data :=
  { blank_data with
    local_high := 70
    local_low := 5
    remote_high := 0x4600
    remote_low := 0x0500 }

/-- The values of a limit write: high limit 60 first, low limit 10 second. -/
def limit_values : Nat → Int := fun i => if i = 1 then 10 else 60

/-! ## Theorems -/

/-! ## Arithmetic of the conversions -/

theorem u8_natCast (n : Nat) (h : n < 256) : u8 (n : Int) = n := by
  unfold u8; omega

theorem u8_lt (x : Int) : u8 x < 256 := by
  unfold u8; omega

theorem u16_lt (x : Int) : u16 x < 65536 := by
  unfold u16; omega

theorem int_land_natCast (m n : Nat) : Int.land (m : Int) (n : Int) = ((m &&& n : Nat) : Int) :=
  rfl

/-- Masking with a single bit keeps that bit. -/
theorem nat_land_two_pow (n k : Nat) : n &&& 2 ^ k = if n.testBit k then 2 ^ k else 0 := by
  apply Nat.eq_of_testBit_eq
  intro i
  rw [Nat.testBit_land, Nat.testBit_two_pow]
  by_cases hi : k = i
  · subst hi
    by_cases hb : n.testBit k <;> simp [hb, Nat.testBit_two_pow]
  · by_cases hb : n.testBit k <;> simp [hb, hi, Nat.testBit_two_pow]

/-- Bit 7 of a byte is set exactly from 128 on. -/
theorem nat_land_0x80 (n : Nat) (h : n < 256) : n &&& 0x80 = if 128 ≤ n then 128 else 0 := by
  have hb : n.testBit 7 = decide (128 ≤ n) := by
    rw [Nat.testBit_to_div_mod]
    congr 1
    apply propext
    constructor <;> intro _ <;> omega
  have := nat_land_two_pow n 7
  rw [hb] at this
  simpa using this

/-- Bit 15 of a 16-bit value is set exactly from 32768 on. -/
theorem nat_land_0x8000 (n : Nat) (h : n < 65536) :
    n &&& 0x8000 = if 32768 ≤ n then 32768 else 0 := by
  have hb : n.testBit 15 = decide (32768 ≤ n) := by
    rw [Nat.testBit_to_div_mod]
    congr 1
    apply propext
    constructor <;> intro _ <;> omega
  have := nat_land_two_pow n 15
  rw [hb] at this
  simpa using this

/-- Masking a 16-bit value with `0xFFE0` clears its five low bits. -/
theorem nat_land_0xFFE0 (n : Nat) (h : n < 65536) : n &&& 0xFFE0 = 32 * (n / 32) := by
  apply Nat.eq_of_testBit_eq
  intro i
  have h32 : (32 : Nat) = 2 ^ 5 := by norm_num
  rw [Nat.testBit_land, h32, Nat.testBit_mul_pow_two, ← Nat.shiftRight_eq_div_pow,
    Nat.testBit_shiftRight]
  by_cases h5 : i < 5
  · have : (0xFFE0 : Nat).testBit i = false := by interval_cases i <;> rfl
    simp [this]; omega
  · by_cases h16 : i < 16
    · have : (0xFFE0 : Nat).testBit i = true := by interval_cases i <;> rfl
      have e : 5 + (i - 5) = i := by omega
      simp [this, e]; omega
    · have hn : n.testBit i = false := by
        apply Nat.testBit_lt_two_pow
        calc n < 2 ^ 16 := by omega
          _ ≤ 2 ^ i := Nat.pow_le_pow_right (by norm_num) (by omega)
      have e : 5 + (i - 5) = i := by omega
      simp [hn, e]

theorem TEMP1_FROM_REG_natCast (n : Nat) (h : n < 256) :
    TEMP1_FROM_REG (n : Int) = if 128 ≤ n then (n : Int) - 256 else n := by
  unfold TEMP1_FROM_REG
  have : Int.land (n : Int) 0x80 = ((n &&& 0x80 : Nat) : Int) := int_land_natCast n 0x80
  rw [this, nat_land_0x80 n h]
  split <;> simp

/-- The decoder of the 16-bit registers in arithmetic form. -/
theorem TEMP2_FROM_REG_natCast (n : Nat) (h : n < 65536) :
    TEMP2_FROM_REG (n : Int)
      = ((if 32768 ≤ n then (n : Int) - 65536 else n) * 10 + 128) / 256 := by
  unfold TEMP2_FROM_REG
  have : Int.land (n : Int) 0x8000 = ((n &&& 0x8000 : Nat) : Int) := int_land_natCast n 0x8000
  rw [this, nat_land_0x8000 n h, Int.shiftRight_eq_div_pow]
  split <;> simp

/-- A value that fits 32 bits is a `long` on every kernel. -/
theorem slong_small (K : Kernel) (x : Int) (hlo : -2147483648 ≤ x) (hhi : x < 2147483648) :
    K.slong x = x := by
  unfold Kernel.slong
  obtain ⟨b, hb⟩ : ∃ b, K.BITS_PER_LONG = b + 1 := ⟨K.BITS_PER_LONG - 1, by
    have := K.long_bits
    omega⟩
  have h31 : 31 ≤ b := by
    have := K.long_bits
    omega
  have hM : (2 : Nat) ^ 31 ≤ 2 ^ b := Nat.pow_le_pow_right (by norm_num) h31
  rw [hb, Nat.add_sub_cancel, Nat.pow_succ]
  generalize (2 : Nat) ^ b = M at hM
  have hm : (x + (M : Int)) % ((M * 2 : Nat) : Int) = x + M := by
    apply Int.emod_eq_of_lt
    · omega
    · push_cast
      omega
  rw [hm]
  omega

/-- The encoder of the 16-bit registers on the remote range: the value is
`32 * ⌊4 t / 5⌋` reduced modulo 2^16. -/
theorem TEMP2_TO_REG_range (K : Kernel) (t : Int) (hlo : -1280 ≤ t) (hhi : t ≤ 1279) :
    TEMP2_TO_REG K t = (32 * (4 * t / 5)) % 65536 := by
  unfold TEMP2_TO_REG
  rw [slong_small K (t * 256) (by omega) (by omega)]
  by_cases ht : t < 0
  · have hd : Int.tdiv (t * 256) 10 = -((-(t * 256)) / 10) := by
      have := Int.neg_tdiv (-(t * 256)) 10
      rw [neg_neg] at this
      rw [this, Int.tdiv_eq_ediv (by omega) (by norm_num)]
    rw [hd, if_pos ht]
    obtain ⟨m, hm⟩ : ∃ m : Nat, (m : Int) = -(-(t * 256) / 10) + 0x10000 :=
      ⟨(-(-(t * 256) / 10) + 0x10000).toNat, by omega⟩
    rw [← hm]
    have : Int.land (m : Int) 0xFFE0 = ((m &&& 0xFFE0 : Nat) : Int) := int_land_natCast m 0xFFE0
    rw [this, nat_land_0xFFE0 m (by omega)]
    push_cast
    have h5 : t % 5 = 0 ∨ t % 5 = 1 ∨ t % 5 = 2 ∨ t % 5 = 3 ∨ t % 5 = 4 := by omega
    rcases h5 with h5 | h5 | h5 | h5 | h5 <;> omega
  · have hd : Int.tdiv (t * 256) 10 = (t * 256) / 10 :=
      Int.tdiv_eq_ediv (by omega) (by norm_num)
    rw [hd, if_neg ht]
    obtain ⟨m, hm⟩ : ∃ m : Nat, (m : Int) = t * 256 / 10 + 0 :=
      ⟨(t * 256 / 10 + 0).toNat, by omega⟩
    rw [← hm]
    have : Int.land (m : Int) 0xFFE0 = ((m &&& 0xFFE0 : Nat) : Int) := int_land_natCast m 0xFFE0
    rw [this, nat_land_0xFFE0 m (by omega)]
    push_cast
    have h5 : t % 5 = 0 ∨ t % 5 = 1 ∨ t % 5 = 2 ∨ t % 5 = 3 ∨ t % 5 = 4 := by omega
    rcases h5 with h5 | h5 | h5 | h5 | h5 <;> omega

/-- Writing a tenths value of the remote range and reading the register back
gives the value itself or one tenth less. -/
theorem TEMP2_roundtrip (K : Kernel) (t : Int) (hlo : -1280 ≤ t) (hhi : t ≤ 1279) :
    TEMP2_FROM_REG (u16 (TEMP2_TO_REG K t))
      = if t % 5 = 1 ∨ t % 5 = 2 then t - 1 else t := by
  rw [TEMP2_FROM_REG_natCast _ (u16_lt _), TEMP2_TO_REG_range K t hlo hhi]
  unfold u16
  have h5 : t % 5 = 0 ∨ t % 5 = 1 ∨ t % 5 = 2 ∨ t % 5 = 3 ∨ t % 5 = 4 := by omega
  rcases h5 with h5 | h5 | h5 | h5 | h5 <;> split <;> split <;> omega

/-- The high byte and the low byte of a remote reading fit in 16 bits. -/
theorem remote_combine (h l : Nat) (hh : h < 256) (hl : l < 65536) :
    (l ||| (h <<< 8)) % 65536 = (h <<< 8) ||| l := by
  have h1 : h <<< 8 < 2 ^ 16 := by rw [Nat.shiftLeft_eq]; omega
  have h2 : l < 2 ^ 16 := by omega
  have h3 := Nat.or_lt_two_pow h2 h1
  rw [Nat.mod_eq_of_lt (by omega), Nat.or_comm]

theorem read_spec (bus : Bus) (log : List BusOp) (command : Nat) :
    ∃ v : Int, i2c_smbus_read_byte_data bus log command = (v, log ++ [BusOp.read command v]) :=
  ⟨bus log command, rfl⟩

theorem update_skip (K : Kernel) (bus : Bus) (jiffies : Nat) (client : Client)
    (h : needs_update K jiffies client.data = false) :
    lm90_update_client K bus jiffies client = client := by
  unfold lm90_update_client
  simp [h]

/-- The complete effect of a refresh: the fourteen or fifteen reads in order
and the cache they produce. -/
theorem update_refresh (K : Kernel) (bus : Bus) (jiffies : Nat) (client : Client)
    (hneed : needs_update K jiffies client.data = true) :
    ∃ (a0 a1 a2 a3 h1 l h2 l2 b0 b1 b2 b3 cr hy st : Int),
      lm90_update_client K bus jiffies client =
        { data :=
            { sysctl_id := client.data.sysctl_id
              valid := 1
              last_updated := jiffies
              local_temp := u8 a0
              local_high := u8 a1
              local_low := u8 a2
              remote_temp := (u8 h2 <<< 8) ||| (if u8 h2 ≠ u8 h1 then u16 l2 else u16 l)
              remote_high := u16 (b0 * 256 + b1)
              remote_low := u16 (b2 * 256 + b3)
              local_crit := u8 a3
              remote_crit := u8 cr
              hyst := u8 hy
              alarms := u16 st }
          log := client.log ++
            ([BusOp.read LM90_REG_R_LOCAL_TEMP a0, BusOp.read LM90_REG_R_LOCAL_HIGH a1,
              BusOp.read LM90_REG_R_LOCAL_LOW a2, BusOp.read LM90_REG_R_LOCAL_CRIT a3,
              BusOp.read LM90_REG_R_REMOTE_TEMPH h1, BusOp.read LM90_REG_R_REMOTE_TEMPL l,
              BusOp.read LM90_REG_R_REMOTE_TEMPH h2]
            ++ (if u8 h2 ≠ u8 h1 then [BusOp.read LM90_REG_R_REMOTE_TEMPL l2] else [])
            ++ [BusOp.read LM90_REG_R_REMOTE_HIGHH b0, BusOp.read LM90_REG_R_REMOTE_HIGHL b1,
              BusOp.read LM90_REG_R_REMOTE_LOWH b2, BusOp.read LM90_REG_R_REMOTE_LOWL b3,
              BusOp.read LM90_REG_R_REMOTE_CRIT cr, BusOp.read LM90_REG_R_TCRIT_HYST hy,
              BusOp.read LM90_REG_R_STATUS st]) } := by
  unfold lm90_update_client
  simp only [hneed, if_true]
  obtain ⟨a0, e⟩ := read_spec bus client.log LM90_REG_R_LOCAL_TEMP
  simp only [e]; clear e
  generalize hL1 : client.log ++ [BusOp.read LM90_REG_R_LOCAL_TEMP a0] = L1
  obtain ⟨a1, e⟩ := read_spec bus L1 LM90_REG_R_LOCAL_HIGH
  simp only [e]; clear e
  generalize hL2 : L1 ++ [BusOp.read LM90_REG_R_LOCAL_HIGH a1] = L2
  obtain ⟨a2, e⟩ := read_spec bus L2 LM90_REG_R_LOCAL_LOW
  simp only [e]; clear e
  generalize hL3 : L2 ++ [BusOp.read LM90_REG_R_LOCAL_LOW a2] = L3
  obtain ⟨a3, e⟩ := read_spec bus L3 LM90_REG_R_LOCAL_CRIT
  simp only [e]; clear e
  generalize hL4 : L3 ++ [BusOp.read LM90_REG_R_LOCAL_CRIT a3] = L4
  obtain ⟨h1, e⟩ := read_spec bus L4 LM90_REG_R_REMOTE_TEMPH
  simp only [e]; clear e
  generalize hL5 : L4 ++ [BusOp.read LM90_REG_R_REMOTE_TEMPH h1] = L5
  obtain ⟨l, e⟩ := read_spec bus L5 LM90_REG_R_REMOTE_TEMPL
  simp only [e]; clear e
  generalize hL6 : L5 ++ [BusOp.read LM90_REG_R_REMOTE_TEMPL l] = L6
  obtain ⟨h2, e⟩ := read_spec bus L6 LM90_REG_R_REMOTE_TEMPH
  simp only [e]; clear e
  generalize hL7 : L6 ++ [BusOp.read LM90_REG_R_REMOTE_TEMPH h2] = L7
  obtain ⟨l2, e⟩ := read_spec bus L7 LM90_REG_R_REMOTE_TEMPL
  simp only [e]; clear e
  generalize hL8 : (if u8 h2 ≠ u8 h1 then
    (l2, L7 ++ [BusOp.read LM90_REG_R_REMOTE_TEMPL l2]) else (h2, L7)).2 = L8
  obtain ⟨b0, e⟩ := read_spec bus L8 LM90_REG_R_REMOTE_HIGHH
  simp only [e]; clear e
  generalize hL9 : L8 ++ [BusOp.read LM90_REG_R_REMOTE_HIGHH b0] = L9
  obtain ⟨b1, e⟩ := read_spec bus L9 LM90_REG_R_REMOTE_HIGHL
  simp only [e]; clear e
  generalize hL10 : L9 ++ [BusOp.read LM90_REG_R_REMOTE_HIGHL b1] = L10
  obtain ⟨b2, e⟩ := read_spec bus L10 LM90_REG_R_REMOTE_LOWH
  simp only [e]; clear e
  generalize hL11 : L10 ++ [BusOp.read LM90_REG_R_REMOTE_LOWH b2] = L11
  obtain ⟨b3, e⟩ := read_spec bus L11 LM90_REG_R_REMOTE_LOWL
  simp only [e]; clear e
  generalize hL12 : L11 ++ [BusOp.read LM90_REG_R_REMOTE_LOWL b3] = L12
  obtain ⟨cr, e⟩ := read_spec bus L12 LM90_REG_R_REMOTE_CRIT
  simp only [e]; clear e
  generalize hL13 : L12 ++ [BusOp.read LM90_REG_R_REMOTE_CRIT cr] = L13
  obtain ⟨hy, e⟩ := read_spec bus L13 LM90_REG_R_TCRIT_HYST
  simp only [e]; clear e
  generalize hL14 : L13 ++ [BusOp.read LM90_REG_R_TCRIT_HYST hy] = L14
  obtain ⟨st, e⟩ := read_spec bus L14 LM90_REG_R_STATUS
  simp only [e]; clear e
  refine ⟨a0, a1, a2, a3, h1, l, h2, l2, b0, b1, b2, b3, cr, hy, st, ?_⟩
  subst hL14 hL13 hL12 hL11 hL10 hL9 hL8 hL7 hL6 hL5 hL4 hL3 hL2 hL1
  by_cases hh : u8 h2 = u8 h1
  · simp [hh, remote_combine _ _ (u8_lt h1) (u16_lt l)]
  · simp [hh, remote_combine _ _ (u8_lt h2) (u16_lt l2)]

theorem needs_update_eq_false_iff (K : Kernel) (now : Nat) (data : lm90_data)
    (hnow : now < 2 ^ K.BITS_PER_LONG) :
    needs_update K now data = false ↔ cache_fresh K now data := by
  unfold needs_update cache_fresh Kernel.usub
  simp only [Bool.or_eq_false_iff, decide_eq_false_iff_not, not_lt, gt_iff_lt]
  constructor
  · rintro ⟨⟨h1, h2⟩, h3⟩
    refine ⟨h3, h2, ?_⟩
    have hm : ((now : Int) - (data.last_updated : Int)) % ((2 ^ K.BITS_PER_LONG : Nat) : Int)
        = (now : Int) - data.last_updated :=
      Int.emod_eq_of_lt (by omega) (by omega)
    rw [hm] at h1
    omega
  · rintro ⟨h1, h2, h3⟩
    refine ⟨⟨?_, h2⟩, h1⟩
    have hm : ((now : Int) - (data.last_updated : Int)) % ((2 ^ K.BITS_PER_LONG : Nat) : Int)
        = (now : Int) - data.last_updated :=
      Int.emod_eq_of_lt (by omega) (by omega)
    rw [hm]
    omega

/-- The torn-read scenario evaluated: high byte 0x02, low byte 0x40, high byte
again 0x03, low byte again 0x77; the cache holds 0x0377 and the low byte was
read twice. -/
theorem torn_bus_refresh :
    (lm90_update_client kernel_100 torn_bus 5 ⟨blank_data, []⟩).data.remote_temp = 0x0377
    ∧ (lm90_update_client kernel_100 torn_bus 5 ⟨blank_data, []⟩).log
        = [BusOp.read 0x00 0, BusOp.read 0x05 0, BusOp.read 0x06 0, BusOp.read 0x20 0,
           BusOp.read 0x01 0x02, BusOp.read 0x10 0x40, BusOp.read 0x01 0x03,
           BusOp.read 0x10 0x77, BusOp.read 0x07 0, BusOp.read 0x13 0, BusOp.read 0x08 0,
           BusOp.read 0x14 0, BusOp.read 0x19 0, BusOp.read 0x21 0, BusOp.read 0x02 0] := by
  decide

/-- C2. Staleness gate.  For a clock value that is an `unsigned long`, a call
of `lm90_update_client` makes no bus transfer and leaves the whole cache as it
was exactly when the cache is valid, the clock has not moved backward and at
most `2*HZ` ticks have passed since the last refresh.  In every other case it
makes the full read sequence (fourteen registers in order, the remote low byte
once more after a changed high byte; reads only), marks the cache valid and
stamps it with the clock value; a further call within the next `2*HZ` ticks
then changes nothing and makes no transfer. -/
theorem C2_staleness_gate (K : Kernel) (bus : Bus) (now : Nat) (client : Client)
    (hnow : now < 2 ^ K.BITS_PER_LONG) :
    (((lm90_update_client K bus now client).log = client.log
        ∧ (lm90_update_client K bus now client).data = client.data)
      ↔ cache_fresh K now client.data)
    ∧ (¬ cache_fresh K now client.data →
        (∃ ops : List BusOp,
          (lm90_update_client K bus now client).log = client.log ++ ops
          ∧ (∀ op ∈ ops, op.isRead = true)
          ∧ (ops.map BusOp.reg
                = [LM90_REG_R_LOCAL_TEMP, LM90_REG_R_LOCAL_HIGH, LM90_REG_R_LOCAL_LOW,
                   LM90_REG_R_LOCAL_CRIT, LM90_REG_R_REMOTE_TEMPH, LM90_REG_R_REMOTE_TEMPL,
                   LM90_REG_R_REMOTE_TEMPH, LM90_REG_R_REMOTE_HIGHH, LM90_REG_R_REMOTE_HIGHL,
                   LM90_REG_R_REMOTE_LOWH, LM90_REG_R_REMOTE_LOWL, LM90_REG_R_REMOTE_CRIT,
                   LM90_REG_R_TCRIT_HYST, LM90_REG_R_STATUS]
              ∨ ops.map BusOp.reg
                = [LM90_REG_R_LOCAL_TEMP, LM90_REG_R_LOCAL_HIGH, LM90_REG_R_LOCAL_LOW,
                   LM90_REG_R_LOCAL_CRIT, LM90_REG_R_REMOTE_TEMPH, LM90_REG_R_REMOTE_TEMPL,
                   LM90_REG_R_REMOTE_TEMPH, LM90_REG_R_REMOTE_TEMPL, LM90_REG_R_REMOTE_HIGHH,
                   LM90_REG_R_REMOTE_HIGHL, LM90_REG_R_REMOTE_LOWH, LM90_REG_R_REMOTE_LOWL,
                   LM90_REG_R_REMOTE_CRIT, LM90_REG_R_TCRIT_HYST, LM90_REG_R_STATUS]))
        ∧ (lm90_update_client K bus now client).data.valid = 1
        ∧ (lm90_update_client K bus now client).data.last_updated = now
        ∧ ∀ later : Nat, later < 2 ^ K.BITS_PER_LONG → now ≤ later → later - now ≤ 2 * K.HZ →
            lm90_update_client K bus later (lm90_update_client K bus now client)
              = lm90_update_client K bus now client) := by
  have hiff := needs_update_eq_false_iff K now client.data hnow
  by_cases hf : cache_fresh K now client.data
  · have hs := update_skip K bus now client (hiff.mpr hf)
    rw [hs]
    exact ⟨⟨fun _ => hf, fun _ => ⟨rfl, rfl⟩⟩, fun h => absurd hf h⟩
  · have hneed : needs_update K now client.data = true := by
      cases hb : needs_update K now client.data
      · exact absurd (hiff.mp hb) hf
      · rfl
    obtain ⟨a0, a1, a2, a3, h1, l, h2, l2, b0, b1, b2, b3, cr, hy, st, e⟩ :=
      update_refresh K bus now client hneed
    refine ⟨⟨fun h => ?_, fun h => absurd h hf⟩, fun _ => ⟨⟨_, by rw [e], ?_, ?_⟩, ?_, ?_, ?_⟩⟩
    · exfalso
      have hl := congrArg List.length h.1
      rw [e] at hl
      simp at hl
    · intro op hop
      by_cases hh : u8 h2 = u8 h1
      · simp [hh] at hop
        rcases hop with h | h | h | h | h | h | h | h | h | h | h | h | h | h <;> subst h <;> rfl
      · simp [hh] at hop
        rcases hop with h | h | h | h | h | h | h | h | h | h | h | h | h | h | h <;>
          subst h <;> rfl
    · by_cases hh : u8 h2 = u8 h1
      · left; simp [hh, BusOp.reg]
      · right; simp [hh, BusOp.reg]
    · rw [e]
    · rw [e]
    · intro later hl1 hl2 hl3
      apply update_skip
      rw [needs_update_eq_false_iff K later _ hl1, e]
      exact ⟨by simp, hl2, hl3⟩

/-- Witness of C2: clock value 5 on a 32-bit kernel, cache refreshed at 5. -/
theorem C2_staleness_gate_witness :
    5 < 2 ^ kernel_100.BITS_PER_LONG ∧
    ((((lm90_update_client kernel_100 torn_bus 5 ⟨fresh_data, []⟩).log = []
        ∧ (lm90_update_client kernel_100 torn_bus 5 ⟨fresh_data, []⟩).data = fresh_data)
      ↔ cache_fresh kernel_100 5 fresh_data)
    ∧ (¬ cache_fresh kernel_100 5 fresh_data →
        (∃ ops : List BusOp,
          (lm90_update_client kernel_100 torn_bus 5 ⟨fresh_data, []⟩).log = [] ++ ops
          ∧ (∀ op ∈ ops, op.isRead = true)
          ∧ (ops.map BusOp.reg
                = [LM90_REG_R_LOCAL_TEMP, LM90_REG_R_LOCAL_HIGH, LM90_REG_R_LOCAL_LOW,
                   LM90_REG_R_LOCAL_CRIT, LM90_REG_R_REMOTE_TEMPH, LM90_REG_R_REMOTE_TEMPL,
                   LM90_REG_R_REMOTE_TEMPH, LM90_REG_R_REMOTE_HIGHH, LM90_REG_R_REMOTE_HIGHL,
                   LM90_REG_R_REMOTE_LOWH, LM90_REG_R_REMOTE_LOWL, LM90_REG_R_REMOTE_CRIT,
                   LM90_REG_R_TCRIT_HYST, LM90_REG_R_STATUS]
              ∨ ops.map BusOp.reg
                = [LM90_REG_R_LOCAL_TEMP, LM90_REG_R_LOCAL_HIGH, LM90_REG_R_LOCAL_LOW,
                   LM90_REG_R_LOCAL_CRIT, LM90_REG_R_REMOTE_TEMPH, LM90_REG_R_REMOTE_TEMPL,
                   LM90_REG_R_REMOTE_TEMPH, LM90_REG_R_REMOTE_TEMPL, LM90_REG_R_REMOTE_HIGHH,
                   LM90_REG_R_REMOTE_HIGHL, LM90_REG_R_REMOTE_LOWH, LM90_REG_R_REMOTE_LOWL,
                   LM90_REG_R_REMOTE_CRIT, LM90_REG_R_TCRIT_HYST, LM90_REG_R_STATUS]))
        ∧ (lm90_update_client kernel_100 torn_bus 5 ⟨fresh_data, []⟩).data.valid = 1
        ∧ (lm90_update_client kernel_100 torn_bus 5 ⟨fresh_data, []⟩).data.last_updated = 5
        ∧ ∀ later : Nat, later < 2 ^ kernel_100.BITS_PER_LONG →
            5 ≤ later → later - 5 ≤ 2 * kernel_100.HZ →
            lm90_update_client kernel_100 torn_bus later
              (lm90_update_client kernel_100 torn_bus 5 ⟨fresh_data, []⟩)
              = lm90_update_client kernel_100 torn_bus 5 ⟨fresh_data, []⟩)) :=
  ⟨by decide, C2_staleness_gate kernel_100 torn_bus 5 ⟨fresh_data, []⟩ (by decide)⟩

/-- C3. Local codec round trip: for every whole-degree value `d` with
`-128 ≤ d ≤ 127`, decoding the 8-bit register value that encoding `d` stores
gives `d` back. -/
theorem C3_local_codec_roundtrip (d : Int) (hlo : -128 ≤ d) (hhi : d ≤ 127) :
    TEMP1_FROM_REG (u8 (TEMP1_TO_REG d)) = d := by
  rw [TEMP1_FROM_REG_natCast _ (u8_lt _)]
  unfold u8 TEMP1_TO_REG
  split <;> split <;> omega

/-- Witness of C3 at -128 degrees. -/
theorem C3_local_codec_roundtrip_witness :
    (-128 : Int) ≤ -128 ∧ (-128 : Int) ≤ 127 ∧ TEMP1_FROM_REG (u8 (TEMP1_TO_REG (-128))) = -128 :=
  ⟨by decide, by decide, C3_local_codec_roundtrip (-128) (by decide) (by decide)⟩

/-- C4. Remote codec round trip: for every tenths value `t` of the remote range
(`-1280 ≤ t ≤ 1279`), decoding the 16-bit register value that encoding `t`
stores differs from `t` by at most one tenth, which is within the 1/8-degree
(1.25 tenths) resolution. -/
theorem C4_remote_codec_roundtrip (K : Kernel) (t : Int) (hlo : -1280 ≤ t) (hhi : t ≤ 1279) :
    |TEMP2_FROM_REG (u16 (TEMP2_TO_REG K t)) - t| ≤ 1 := by
  rw [TEMP2_roundtrip K t hlo hhi, abs_le]
  split <;> omega

/-- Witness of C4 at -0.3 degrees, which is off the 1/8-degree grid. -/
theorem C4_remote_codec_roundtrip_witness :
    (-1280 : Int) ≤ -3 ∧ (-3 : Int) ≤ 1279 ∧ |TEMP2_FROM_REG (u16 (TEMP2_TO_REG kernel_100 (-3))) - (-3)| ≤ 1 :=
  ⟨by decide, by decide, C4_remote_codec_roundtrip kernel_100 (-3) (by decide) (by decide)⟩

/-- A write through `lm90_remote_temp` that carries a high limit stores its
encoding, leaves validity and time stamp alone and only issues writes. -/
theorem remote_temp_write (K : Kernel) (bus : Bus) (jiffies : Nat) (client : Client)
    (nrels_mag : Int) (results : Nat → Int) (hn : 1 ≤ nrels_mag) :
    (lm90_remote_temp K bus jiffies client SENSORS_PROC_REAL_WRITE nrels_mag results).client.data.remote_high
        = u16 (TEMP2_TO_REG K (results 0))
    ∧ (lm90_remote_temp K bus jiffies client SENSORS_PROC_REAL_WRITE nrels_mag results).client.data.valid
        = client.data.valid
    ∧ (lm90_remote_temp K bus jiffies client SENSORS_PROC_REAL_WRITE nrels_mag results).client.data.last_updated
        = client.data.last_updated
    ∧ ∃ ops : List BusOp,
        (lm90_remote_temp K bus jiffies client SENSORS_PROC_REAL_WRITE nrels_mag results).client.log
          = client.log ++ ops
        ∧ ∀ op ∈ ops, op.isRead = false := by
  unfold lm90_remote_temp
  have h1 : SENSORS_PROC_REAL_WRITE ≠ SENSORS_PROC_REAL_INFO := by decide
  have h2 : SENSORS_PROC_REAL_WRITE ≠ SENSORS_PROC_REAL_READ := by decide
  simp only [h1, h2, if_false, if_true, ge_iff_le, hn, i2c_smbus_write_byte_data]
  by_cases h3 : (2 : Int) ≤ nrels_mag
  · simp only [h3, if_true]
    refine ⟨trivial, trivial, trivial, _, by rw [List.append_assoc, List.append_assoc, List.append_assoc], ?_⟩
    intro op hop
    simp at hop
    rcases hop with h | h | h | h <;> subst h <;> rfl
  · simp only [h3, if_false]
    refine ⟨trivial, trivial, trivial, _, by rw [List.append_assoc], ?_⟩
    intro op hop
    simp at hop
    rcases hop with h | h <;> subst h <;> rfl

/-- A read through `lm90_remote_temp` of a fresh cache decodes the cached high
limit and leaves the client as it was. -/
theorem remote_temp_read_fresh (K : Kernel) (bus : Bus) (now : Nat) (client : Client)
    (nrels_mag : Int) (results : Nat → Int) (hnow : now < 2 ^ K.BITS_PER_LONG)
    (hfresh : cache_fresh K now client.data) :
    (lm90_remote_temp K bus now client SENSORS_PROC_REAL_READ nrels_mag results).results 0
        = TEMP2_FROM_REG client.data.remote_high
    ∧ (lm90_remote_temp K bus now client SENSORS_PROC_REAL_READ nrels_mag results).client
        = client := by
  unfold lm90_remote_temp
  have h1 : SENSORS_PROC_REAL_READ ≠ SENSORS_PROC_REAL_INFO := by decide
  have hs := update_skip K bus now client ((needs_update_eq_false_iff K now _ hnow).mpr hfresh)
  simp [h1, hs, Function.update]

/-- C5 (as amended). Write-then-read on the remote high limit: after a write of
a tenths value `t` of the remote range as the high limit, a read of the channel
while the cache is fresh makes no bus transfer and returns as `results[0]` the
value `t` when `t mod 5` is 0, 3 or 4 and `t - 1` when `t mod 5` is 1 or 2; the
write itself issues writes only. -/
theorem C5_remote_high_write_then_read (K : Kernel) (bus : Bus) (jw now : Nat)
    (client : Client) (t : Int) (nw nr : Int) (rw rr : Nat → Int)
    (hlo : -1280 ≤ t) (hhi : t ≤ 1279) (hn : 1 ≤ nw) (ht : rw 0 = t)
    (hnow : now < 2 ^ K.BITS_PER_LONG) (hfresh : cache_fresh K now client.data) :
    (lm90_remote_temp K bus now
        (lm90_remote_temp K bus jw client SENSORS_PROC_REAL_WRITE nw rw).client
        SENSORS_PROC_REAL_READ nr rr).results 0
      = (if t % 5 = 1 ∨ t % 5 = 2 then t - 1 else t)
    ∧ (lm90_remote_temp K bus now
        (lm90_remote_temp K bus jw client SENSORS_PROC_REAL_WRITE nw rw).client
        SENSORS_PROC_REAL_READ nr rr).client.log
      = (lm90_remote_temp K bus jw client SENSORS_PROC_REAL_WRITE nw rw).client.log
    ∧ ∃ ops : List BusOp,
        (lm90_remote_temp K bus jw client SENSORS_PROC_REAL_WRITE nw rw).client.log
          = client.log ++ ops
        ∧ ∀ op ∈ ops, op.isRead = false := by
  obtain ⟨w1, w2, w3, w4⟩ := remote_temp_write K bus jw client nw rw hn
  have hf : cache_fresh K now
      (lm90_remote_temp K bus jw client SENSORS_PROC_REAL_WRITE nw rw).client.data := by
    unfold cache_fresh
    rw [w2, w3]
    exact hfresh
  obtain ⟨r1, r2⟩ := remote_temp_read_fresh K bus now _ nr rr hnow hf
  refine ⟨?_, by rw [r2], w4⟩
  rw [r1, w1, ht]
  exact TEMP2_roundtrip K t hlo hhi

/-- Witness of C5 (as amended): 12.3 degrees written and read back. -/
theorem C5_remote_high_write_then_read_witness :
    (-1280 : Int) ≤ 123 ∧ (123 : Int) ≤ 1279 ∧ (1 : Int) ≤ 1
    ∧ (fun _ : Nat => (123 : Int)) 0 = 123
    ∧ 7 < 2 ^ kernel_100.BITS_PER_LONG ∧ cache_fresh kernel_100 7 fresh_data
    ∧ (lm90_remote_temp kernel_100 torn_bus 7
          (lm90_remote_temp kernel_100 torn_bus 6 ⟨fresh_data, []⟩
            SENSORS_PROC_REAL_WRITE 1 (fun _ => 123)).client
          SENSORS_PROC_REAL_READ 0 (fun _ => 0)).results 0
        = (if (123 : Int) % 5 = 1 ∨ (123 : Int) % 5 = 2 then 123 - 1 else 123)
    ∧ (lm90_remote_temp kernel_100 torn_bus 7
          (lm90_remote_temp kernel_100 torn_bus 6 ⟨fresh_data, []⟩
            SENSORS_PROC_REAL_WRITE 1 (fun _ => 123)).client
          SENSORS_PROC_REAL_READ 0 (fun _ => 0)).client.log
        = (lm90_remote_temp kernel_100 torn_bus 6 ⟨fresh_data, []⟩
            SENSORS_PROC_REAL_WRITE 1 (fun _ => 123)).client.log
    ∧ ∃ ops : List BusOp,
        (lm90_remote_temp kernel_100 torn_bus 6 ⟨fresh_data, []⟩
            SENSORS_PROC_REAL_WRITE 1 (fun _ => 123)).client.log
          = [] ++ ops
        ∧ ∀ op ∈ ops, op.isRead = false :=
  ⟨by decide, by decide, by decide, rfl, by decide, by decide,
    C5_remote_high_write_then_read kernel_100 torn_bus 6 7 ⟨fresh_data, []⟩ 123 1 0
      (fun _ => 123) (fun _ => 0) (by decide) (by decide) (by decide) rfl (by decide)
      (by decide)⟩

/-- Counterexample to C5 as stated: with a fresh cache, a write of the high
limit 0.1 degree (`t = 1`, inside the remote range) followed by a read at
once returns 0 as `results[0]`, not the value written. -/
theorem C5_written_value_not_returned :
    (-1280 : Int) ≤ 1 ∧ (1 : Int) ≤ 1279 ∧ cache_fresh kernel_100 5 fresh_data
    ∧ (lm90_remote_temp kernel_100 torn_bus 5
          (lm90_remote_temp kernel_100 torn_bus 5 ⟨fresh_data, []⟩
            SENSORS_PROC_REAL_WRITE 1 (fun _ => 1)).client
          SENSORS_PROC_REAL_READ 0 (fun _ => 0)).results 0 = 0
    ∧ (lm90_remote_temp kernel_100 torn_bus 5
          (lm90_remote_temp kernel_100 torn_bus 5 ⟨fresh_data, []⟩
            SENSORS_PROC_REAL_WRITE 1 (fun _ => 1)).client
          SENSORS_PROC_REAL_READ 0 (fun _ => 0)).results 0 ≠ 1 := by
  decide

/-- C6. Evaluation at the failing input: generic detection (`kind = -1`) of a
device that passes the gate, has manufacturer id 0x01, chip id 0x21, conversion
rate 0x09 and a second configuration register (0xBF) whose masked value is
zero, but whose register 0xB8 reads 0x01.  The driver reads register 0xB8
(the mask is applied to the register address), finds it non-zero, and does not
identify the device: no client results. -/
theorem C6_config2_mask_applied_to_address :
    (regs_lm90_b8 LM90_REG_R_CONFIG1 &&& 0x2A = 0 ∧ regs_lm90_b8 LM90_REG_R_CONVRATE ≤ 0x0A)
    ∧ regs_lm90_b8 LM90_REG_R_MAN_ID = 0x01
    ∧ (0x21 ≤ regs_lm90_b8 LM90_REG_R_CHIP_ID ∧ regs_lm90_b8 LM90_REG_R_CHIP_ID ≤ 0x2F)
    ∧ regs_lm90_b8 LM90_REG_R_CONFIG2 &&& 0xF8 = 0
    ∧ regs_lm90_b8 LM90_REG_R_CONVRATE ≤ 0x09
    ∧ (lm90_detect host_ok (regFile regs_lm90_b8) [] 0 (-1)).kind = -1
    ∧ (lm90_detect host_ok (regFile regs_lm90_b8) [] 0 (-1)).type_name = ""
    ∧ (lm90_detect host_ok (regFile regs_lm90_b8) [] 0 (-1)).client = none
    ∧ (lm90_detect host_ok (regFile regs_lm90_b8) [] 0 (-1)).log
        = [BusOp.read 0x03 0x00, BusOp.read 0x04 0x09, BusOp.read 0xFE 0x01,
           BusOp.read 0xFF 0x21, BusOp.read 0xB8 0x01] := by
  decide

/-- C7. Vendor-B identification: on a device with fixed byte registers whose
manufacturer-ID register reads 0x41, detection without a forced variant
(`kind ≤ 0`; the gate passes when it applies, that is for `kind < 0`)
identifies the device as `adm1032` exactly when the chip-ID high nibble is 0x4
and the first configuration register masked with 0x3F is zero; otherwise the
kind is left as it was. -/
theorem C7_vendor_B_identification (host : Host) (regs : Nat → Nat) (log : List BusOp)
    (id : Nat) (kind : Int) (data : lm90_data)
    (hfun : host.i2c_check_functionality = true) (hmem : host.kmalloc = some data)
    (hbytes : ∀ r, regs r < 256) (hkind : kind ≤ 0)
    (hgate : kind < 0 →
      regs LM90_REG_R_CONFIG1 &&& 0x2A = 0 ∧ regs LM90_REG_R_CONVRATE ≤ 0x0A)
    (hman : regs LM90_REG_R_MAN_ID = 0x41) :
    (((lm90_detect host (regFile regs) log id kind).kind = adm1032
        ∧ (lm90_detect host (regFile regs) log id kind).type_name = "adm1032")
      ↔ (regs LM90_REG_R_CHIP_ID &&& 0xF0 = 0x40 ∧ regs LM90_REG_R_CONFIG1 &&& 0x3F = 0))
    ∧ (¬ (regs LM90_REG_R_CHIP_ID &&& 0xF0 = 0x40 ∧ regs LM90_REG_R_CONFIG1 &&& 0x3F = 0) →
        (lm90_detect host (regFile regs) log id kind).kind = kind
        ∧ (lm90_detect host (regFile regs) log id kind).client = none) := by
  have hg : ¬ (kind < 0 ∧ (¬ regs LM90_REG_R_CONFIG1 &&& 0x2A = 0
      ∨ 0x0A < regs LM90_REG_R_CONVRATE)) := by
    rintro ⟨h1, h2⟩
    have := hgate h1
    omega
  unfold lm90_detect lm90_identify
  simp only [hfun, hmem, i2c_smbus_read_byte_data, regFile, u8_natCast _ (hbytes _)]
  by_cases hc : regs LM90_REG_R_CHIP_ID &&& 0xF0 = 0x40 ∧ regs LM90_REG_R_CONFIG1 &&& 0x3F = 0
  · simp [hman, hkind, hg, hc, adm1032, lm90]
    split_ifs <;> simp
  · simp [hman, hkind, hg, hc, adm1032, lm90]

theorem regs_adm1032_bytes : ∀ r, regs_adm1032 r < 256 := by
  intro r
  unfold regs_adm1032
  split_ifs <;> decide

theorem regs_unknown_bytes : ∀ r, regs_unknown r < 256 := by
  intro r
  unfold regs_unknown
  split_ifs <;> decide

theorem regs_gate_fail_bytes : ∀ r, regs_gate_fail r < 256 := by
  intro r
  unfold regs_gate_fail
  split_ifs <;> decide

/-- Witness of C7: manufacturer 0x41, chip id 0x41, configuration 0x00, generic
detection. -/
theorem C7_vendor_B_identification_witness :
    host_ok.i2c_check_functionality = true ∧ host_ok.kmalloc = some blank_data
    ∧ (∀ r, regs_adm1032 r < 256) ∧ (-1 : Int) ≤ 0
    ∧ ((-1 : Int) < 0 →
        regs_adm1032 LM90_REG_R_CONFIG1 &&& 0x2A = 0 ∧ regs_adm1032 LM90_REG_R_CONVRATE ≤ 0x0A)
    ∧ regs_adm1032 LM90_REG_R_MAN_ID = 0x41
    ∧ ((((lm90_detect host_ok (regFile regs_adm1032) [] 0 (-1)).kind = adm1032
          ∧ (lm90_detect host_ok (regFile regs_adm1032) [] 0 (-1)).type_name = "adm1032")
        ↔ (regs_adm1032 LM90_REG_R_CHIP_ID &&& 0xF0 = 0x40
            ∧ regs_adm1032 LM90_REG_R_CONFIG1 &&& 0x3F = 0))
      ∧ (¬ (regs_adm1032 LM90_REG_R_CHIP_ID &&& 0xF0 = 0x40
            ∧ regs_adm1032 LM90_REG_R_CONFIG1 &&& 0x3F = 0) →
          (lm90_detect host_ok (regFile regs_adm1032) [] 0 (-1)).kind = -1
          ∧ (lm90_detect host_ok (regFile regs_adm1032) [] 0 (-1)).client = none)) :=
  ⟨rfl, rfl, regs_adm1032_bytes, by decide, fun _ => by decide, by decide,
    C7_vendor_B_identification host_ok regs_adm1032 [] 0 (-1) blank_data rfl rfl
      regs_adm1032_bytes (by decide) (fun _ => by decide) (by decide)⟩

/-- The identification block only reads. -/
theorem identify_log (bus : Bus) (log : List BusOp) (kind : Int) (c1 cr : Nat) :
    ∃ ops : List BusOp, (lm90_identify bus log kind c1 cr).2 = log ++ ops
      ∧ ∀ op ∈ ops, op.isRead = true := by
  unfold lm90_identify
  simp only [i2c_smbus_read_byte_data]
  split_ifs
  all_goals first
    | (refine ⟨[], (List.append_nil _).symm, ?_⟩
       simp)
    | (simp only [List.append_assoc]
       refine ⟨_, rfl, ?_⟩
       simp [BusOp.isRead])

/-- C8. Unrecognised devices are rejected: on a device with fixed byte registers,
detection without a forced variant (`kind ≤ 0`) ends with no client, no name
chosen, the instance counter untouched, `kind` as it was, and only reads on the
bus (so `lm90_init_client`, which writes, is not run), whenever the manufacturer
id is neither 0x01 nor 0x41, or it is 0x01 and the chip id is outside
[0x21, 0x2F] or the conversion rate exceeds 0x09, or it is 0x41 and the chip-id
high nibble is not 0x4 or `config1 & 0x3F` is non-zero.  This holds whatever
the kernel services answer. -/
theorem C8_unrecognised_rejected (host : Host) (regs : Nat → Nat) (log : List BusOp)
    (id : Nat) (kind : Int) (hbytes : ∀ r, regs r < 256) (hkind : kind ≤ 0)
    (hbad : (regs LM90_REG_R_MAN_ID ≠ 0x01 ∧ regs LM90_REG_R_MAN_ID ≠ 0x41)
      ∨ (regs LM90_REG_R_MAN_ID = 0x01
          ∧ (regs LM90_REG_R_CHIP_ID < 0x21 ∨ 0x2F < regs LM90_REG_R_CHIP_ID
              ∨ 0x09 < regs LM90_REG_R_CONVRATE))
      ∨ (regs LM90_REG_R_MAN_ID = 0x41
          ∧ (regs LM90_REG_R_CHIP_ID &&& 0xF0 ≠ 0x40 ∨ regs LM90_REG_R_CONFIG1 &&& 0x3F ≠ 0))) :
    (lm90_detect host (regFile regs) log id kind).client = none
    ∧ (lm90_detect host (regFile regs) log id kind).type_name = ""
    ∧ (lm90_detect host (regFile regs) log id kind).kind = kind
    ∧ (lm90_detect host (regFile regs) log id kind).lm90_id = id
    ∧ ∃ ops : List BusOp,
        (lm90_detect host (regFile regs) log id kind).log = log ++ ops
        ∧ ∀ op ∈ ops, op.isRead = true := by
  have hid : (lm90_identify (regFile regs)
      (log ++ [BusOp.read LM90_REG_R_CONFIG1 (regs LM90_REG_R_CONFIG1)]
        ++ [BusOp.read LM90_REG_R_CONVRATE (regs LM90_REG_R_CONVRATE)]) kind
      (regs LM90_REG_R_CONFIG1) (regs LM90_REG_R_CONVRATE)).1 = kind := by
    unfold lm90_identify
    simp only [i2c_smbus_read_byte_data, regFile, u8_natCast _ (hbytes _)]
    rcases hbad with ⟨h1, h2⟩ | ⟨h1, h2⟩ | ⟨h1, h2⟩
    · simp only [h1, h2, if_false]
      split_ifs
      rfl
    · have : ¬ ((0x21 ≤ regs LM90_REG_R_CHIP_ID ∧ regs LM90_REG_R_CHIP_ID < 0x30)
          ∧ regs LM90_REG_R_CONVRATE ≤ 0x09) := by omega
      simp only [h1]
      split_ifs <;> first | rfl | omega
    · have : ¬ (regs LM90_REG_R_CHIP_ID &&& 0xF0 = 0x40
          ∧ regs LM90_REG_R_CONFIG1 &&& 0x3F = 0) := by
        rintro ⟨a, b⟩
        rcases h2 with h2 | h2
        · exact h2 a
        · exact h2 b
      simp only [h1]
      split_ifs <;> first | rfl | omega
  obtain ⟨ops, hops, hread⟩ := identify_log (regFile regs)
    (log ++ [BusOp.read LM90_REG_R_CONFIG1 (regs LM90_REG_R_CONFIG1)]
      ++ [BusOp.read LM90_REG_R_CONVRATE (regs LM90_REG_R_CONVRATE)]) kind
    (regs LM90_REG_R_CONFIG1) (regs LM90_REG_R_CONVRATE)
  unfold lm90_detect
  by_cases hfun : host.i2c_check_functionality = true
  · cases hmem : host.kmalloc with
    | none =>
      simp only [hfun, not_true_eq_false, if_false]
      refine ⟨?_, ?_, ?_, ?_, [], ?_, ?_⟩ <;> simp
    | some data =>
      simp only [hfun, not_true_eq_false, if_false, i2c_smbus_read_byte_data, regFile,
        u8_natCast _ (hbytes _)]
      simp only [regFile] at hid hops
      simp only [hid, hops, hkind, if_true]
      split_ifs with hg
      · refine ⟨?_, ?_, ?_, ?_, _, List.append_assoc _ _ _, ?_⟩ <;> simp [BusOp.isRead]
      · refine ⟨rfl, rfl, rfl, rfl,
          [BusOp.read LM90_REG_R_CONFIG1 (regs LM90_REG_R_CONFIG1)]
            ++ ([BusOp.read LM90_REG_R_CONVRATE (regs LM90_REG_R_CONVRATE)] ++ ops), ?_, ?_⟩
        · simp only [List.append_assoc]
        · intro op hop
          simp only [List.mem_append, List.mem_singleton] at hop
          rcases hop with h | h | h
          · subst h; rfl
          · subst h; rfl
          · exact hread op h
  · simp only [hfun, not_false_eq_true, if_true]
    refine ⟨?_, ?_, ?_, ?_, [], ?_, ?_⟩ <;> simp

/-- Witness of C8: a device of manufacturer 0x55 under generic detection. -/
theorem C8_unrecognised_rejected_witness :
    (∀ r, regs_unknown r < 256) ∧ (-1 : Int) ≤ 0
    ∧ (regs_unknown LM90_REG_R_MAN_ID ≠ 0x01 ∧ regs_unknown LM90_REG_R_MAN_ID ≠ 0x41)
    ∧ (lm90_detect host_ok (regFile regs_unknown) [] 0 (-1)).client = none
    ∧ (lm90_detect host_ok (regFile regs_unknown) [] 0 (-1)).type_name = ""
    ∧ (lm90_detect host_ok (regFile regs_unknown) [] 0 (-1)).kind = -1
    ∧ (lm90_detect host_ok (regFile regs_unknown) [] 0 (-1)).lm90_id = 0
    ∧ ∃ ops : List BusOp,
        (lm90_detect host_ok (regFile regs_unknown) [] 0 (-1)).log = [] ++ ops
        ∧ ∀ op ∈ ops, op.isRead = true :=
  ⟨regs_unknown_bytes, by decide, by decide,
    C8_unrecognised_rejected host_ok regs_unknown [] 0 (-1) regs_unknown_bytes (by decide)
      (Or.inl (by decide))⟩

/-- The complete effect of `lm90_init_client`: ten writes, one read of the
configuration register and, when its bit 6 is set, one more write. -/
theorem init_client_shape (bus : Bus) (client : Client) :
    ∃ config : Int,
      lm90_init_client bus client =
        { data := client.data
          log := client.log ++
            ([BusOp.write LM90_REG_W_LOCAL_HIGH 70, BusOp.write LM90_REG_W_LOCAL_LOW 5,
              BusOp.write LM90_REG_W_LOCAL_CRIT 85, BusOp.write LM90_REG_W_REMOTE_HIGHH 70,
              BusOp.write LM90_REG_W_REMOTE_HIGHL 0, BusOp.write LM90_REG_W_REMOTE_LOWH 5,
              BusOp.write LM90_REG_W_REMOTE_LOWL 0, BusOp.write LM90_REG_W_REMOTE_CRIT 85,
              BusOp.write LM90_REG_W_TCRIT_HYST 10, BusOp.write LM90_REG_W_CONVRATE 5,
              BusOp.read LM90_REG_R_CONFIG1 config]
            ++ (if u8 config &&& 0x40 ≠ 0
                then [BusOp.write LM90_REG_W_CONFIG1 (u8 config &&& 0xBF)] else [])) } := by
  unfold lm90_init_client
  simp only [i2c_smbus_write_byte_data]
  have e1 : u8 (TEMP1_TO_REG LM90_INIT_HIGH) = 70 := by decide
  have e2 : u8 (TEMP1_TO_REG LM90_INIT_LOW) = 5 := by decide
  have e3 : u8 (TEMP1_TO_REG LM90_INIT_CRIT) = 85 := by decide
  have e4 : u8 (HYST_TO_REG LM90_INIT_HYST) = 10 := by decide
  have e5 : u8 0 = 0 := by decide
  have e6 : u8 5 = 5 := by decide
  simp only [e1, e2, e3, e4, e5, e6]
  generalize hL : client.log ++ [BusOp.write LM90_REG_W_LOCAL_HIGH 70]
    ++ [BusOp.write LM90_REG_W_LOCAL_LOW 5] ++ [BusOp.write LM90_REG_W_LOCAL_CRIT 85]
    ++ [BusOp.write LM90_REG_W_REMOTE_HIGHH 70] ++ [BusOp.write LM90_REG_W_REMOTE_HIGHL 0]
    ++ [BusOp.write LM90_REG_W_REMOTE_LOWH 5] ++ [BusOp.write LM90_REG_W_REMOTE_LOWL 0]
    ++ [BusOp.write LM90_REG_W_REMOTE_CRIT 85] ++ [BusOp.write LM90_REG_W_TCRIT_HYST 10]
    ++ [BusOp.write LM90_REG_W_CONVRATE 5] = L
  obtain ⟨config, e⟩ := read_spec bus L LM90_REG_R_CONFIG1
  simp only [e]
  refine ⟨config, ?_⟩
  subst hL
  have hb : u8 ((u8 config &&& 0xBF : Nat) : Int) = u8 config &&& 0xBF :=
    u8_natCast _ (lt_of_le_of_lt Nat.and_le_right (by norm_num))
  by_cases hc : u8 config &&& 0x40 = 0
  · simp [hc]
  · simp [hc, hb]

/-- C9. Forced variant accepted at face value: for every bus, when the kernel
services succeed, `lm90_detect` called with `kind = lm90` or `kind = adm1032`
returns 0 with a client of exactly that kind registered and initialised
(`valid` cleared, the ten initial writes made), and the transfers it makes
are the reads of the configuration and conversion-rate registers followed by
those of `lm90_init_client`: neither the manufacturer-ID nor the chip-ID
register is touched, and no register content makes it fail. -/
theorem C9_forced_variant_accepted (host : Host) (bus : Bus) (log : List BusOp) (id : Nat)
    (kind : Int) (data : lm90_data) (hk : kind = lm90 ∨ kind = adm1032)
    (hfun : host.i2c_check_functionality = true) (hmem : host.kmalloc = some data)
    (hatt : host.i2c_attach_client = 0) (hreg : 0 ≤ host.i2c_register_entry) :
    (lm90_detect host bus log id kind).ret = 0
    ∧ (lm90_detect host bus log id kind).kind = kind
    ∧ (lm90_detect host bus log id kind).type_name
        = (if kind = lm90 then "lm90" else "adm1032")
    ∧ (lm90_detect host bus log id kind).client
        = some { data with valid := 0, sysctl_id := host.i2c_register_entry }
    ∧ (lm90_detect host bus log id kind).lm90_id = id + 1
    ∧ ∃ (c1 cr : Int) (ops : List BusOp),
        (lm90_detect host bus log id kind).log
          = log ++ ([BusOp.read LM90_REG_R_CONFIG1 c1, BusOp.read LM90_REG_R_CONVRATE cr,
              BusOp.write LM90_REG_W_LOCAL_HIGH 70, BusOp.write LM90_REG_W_LOCAL_LOW 5,
              BusOp.write LM90_REG_W_LOCAL_CRIT 85, BusOp.write LM90_REG_W_REMOTE_HIGHH 70,
              BusOp.write LM90_REG_W_REMOTE_HIGHL 0, BusOp.write LM90_REG_W_REMOTE_LOWH 5,
              BusOp.write LM90_REG_W_REMOTE_LOWL 0, BusOp.write LM90_REG_W_REMOTE_CRIT 85,
              BusOp.write LM90_REG_W_TCRIT_HYST 10, BusOp.write LM90_REG_W_CONVRATE 5] ++ ops)
        ∧ ∀ op ∈ ops, op.reg = LM90_REG_R_CONFIG1 ∨ op.reg = LM90_REG_W_CONFIG1 := by
  have hd : lm90_detect host bus log id kind =
      { ret := 0
        kind := kind
        type_name := if kind = lm90 then "lm90" else "adm1032"
        client_name := if kind = lm90 then "LM90 chip" else "ADM1032 chip"
        client := some (lm90_init_client bus
          ⟨{ data with valid := 0, sysctl_id := host.i2c_register_entry },
            (i2c_smbus_read_byte_data bus
              (i2c_smbus_read_byte_data bus log LM90_REG_R_CONFIG1).2
              LM90_REG_R_CONVRATE).2⟩).data
        lm90_id := id + 1
        log := (lm90_init_client bus
          ⟨{ data with valid := 0, sysctl_id := host.i2c_register_entry },
            (i2c_smbus_read_byte_data bus
              (i2c_smbus_read_byte_data bus log LM90_REG_R_CONFIG1).2
              LM90_REG_R_CONVRATE).2⟩).log } := by
    unfold lm90_detect lm90_identify
    rcases hk with rfl | rfl <;>
      simp [hfun, hmem, hatt, not_lt.mpr hreg, lm90, adm1032]
  obtain ⟨c1, e1⟩ := read_spec bus log LM90_REG_R_CONFIG1
  obtain ⟨cr, e2⟩ := read_spec bus (log ++ [BusOp.read LM90_REG_R_CONFIG1 c1])
    LM90_REG_R_CONVRATE
  rw [e1, e2] at hd
  obtain ⟨config, e⟩ := init_client_shape bus
    ⟨{ data with valid := 0, sysctl_id := host.i2c_register_entry },
      log ++ [BusOp.read LM90_REG_R_CONFIG1 c1] ++ [BusOp.read LM90_REG_R_CONVRATE cr]⟩
  rw [e] at hd
  rw [hd]
  refine ⟨rfl, rfl, rfl, rfl, rfl, c1, cr,
    [BusOp.read LM90_REG_R_CONFIG1 config] ++ (if u8 config &&& 0x40 ≠ 0
      then [BusOp.write LM90_REG_W_CONFIG1 (u8 config &&& 0xBF)] else []), ?_, ?_⟩
  · simp only [List.append_assoc, List.singleton_append, List.cons_append, List.nil_append]
  · intro op hop
    by_cases hc : u8 config &&& 0x40 = 0
    · simp [hc] at hop
      subst hop
      exact Or.inl rfl
    · simp [hc] at hop
      rcases hop with h | h
      · subst h; exact Or.inl rfl
      · subst h; exact Or.inr rfl

/-- Witness of C9: `kind = lm90` forced on a device with an ADM1032 signature. -/
theorem C9_forced_variant_accepted_witness :
    (lm90 = lm90 ∨ lm90 = adm1032)
    ∧ host_ok.i2c_check_functionality = true ∧ host_ok.kmalloc = some blank_data
    ∧ host_ok.i2c_attach_client = 0 ∧ 0 ≤ host_ok.i2c_register_entry
    ∧ (lm90_detect host_ok (regFile regs_adm1032) [] 0 lm90).ret = 0
    ∧ (lm90_detect host_ok (regFile regs_adm1032) [] 0 lm90).kind = lm90
    ∧ (lm90_detect host_ok (regFile regs_adm1032) [] 0 lm90).type_name
        = (if lm90 = lm90 then "lm90" else "adm1032")
    ∧ (lm90_detect host_ok (regFile regs_adm1032) [] 0 lm90).client
        = some { blank_data with valid := 0, sysctl_id := host_ok.i2c_register_entry }
    ∧ (lm90_detect host_ok (regFile regs_adm1032) [] 0 lm90).lm90_id = 0 + 1
    ∧ ∃ (c1 cr : Int) (ops : List BusOp),
        (lm90_detect host_ok (regFile regs_adm1032) [] 0 lm90).log
          = [] ++ ([BusOp.read LM90_REG_R_CONFIG1 c1, BusOp.read LM90_REG_R_CONVRATE cr,
              BusOp.write LM90_REG_W_LOCAL_HIGH 70, BusOp.write LM90_REG_W_LOCAL_LOW 5,
              BusOp.write LM90_REG_W_LOCAL_CRIT 85, BusOp.write LM90_REG_W_REMOTE_HIGHH 70,
              BusOp.write LM90_REG_W_REMOTE_HIGHL 0, BusOp.write LM90_REG_W_REMOTE_LOWH 5,
              BusOp.write LM90_REG_W_REMOTE_LOWL 0, BusOp.write LM90_REG_W_REMOTE_CRIT 85,
              BusOp.write LM90_REG_W_TCRIT_HYST 10, BusOp.write LM90_REG_W_CONVRATE 5] ++ ops)
        ∧ ∀ op ∈ ops, op.reg = LM90_REG_R_CONFIG1 ∨ op.reg = LM90_REG_W_CONFIG1 :=
  ⟨Or.inl rfl, rfl, rfl, rfl, by decide,
    C9_forced_variant_accepted host_ok (regFile regs_adm1032) [] 0 lm90 blank_data
      (Or.inl rfl) rfl rfl rfl (by decide)⟩

/-- C10. Detection gate: on a device with fixed byte registers, generic
detection (`kind < 0`) ends with no client, no name chosen, `kind` and
the instance counter untouched, whenever `config1 & 0x2A` is non-zero or the
conversion rate exceeds 0x0A, whatever the other registers hold; the only
transfers are the reads of those two registers (none at all when the kernel
refuses the adapter or the allocation), so the manufacturer-ID and chip-ID
registers are not read. -/
theorem C10_detection_gate (host : Host) (regs : Nat → Nat) (log : List BusOp) (id : Nat)
    (kind : Int) (hbytes : ∀ r, regs r < 256) (hkind : kind < 0)
    (hgate : regs LM90_REG_R_CONFIG1 &&& 0x2A ≠ 0 ∨ 0x0A < regs LM90_REG_R_CONVRATE) :
    (lm90_detect host (regFile regs) log id kind).client = none
    ∧ (lm90_detect host (regFile regs) log id kind).type_name = ""
    ∧ (lm90_detect host (regFile regs) log id kind).kind = kind
    ∧ (lm90_detect host (regFile regs) log id kind).lm90_id = id
    ∧ ((lm90_detect host (regFile regs) log id kind).log = log
        ∨ (lm90_detect host (regFile regs) log id kind).log
            = log ++ [BusOp.read LM90_REG_R_CONFIG1 (regs LM90_REG_R_CONFIG1),
                BusOp.read LM90_REG_R_CONVRATE (regs LM90_REG_R_CONVRATE)]) := by
  unfold lm90_detect
  by_cases hfun : host.i2c_check_functionality = true
  · cases hmem : host.kmalloc with
    | none =>
      simp only [hfun, not_true_eq_false, if_false]
      refine ⟨?_, ?_, ?_, ?_, Or.inl ?_⟩ <;> simp
    | some data =>
      have hg : kind < 0 ∧ (regs LM90_REG_R_CONFIG1 &&& 0x2A ≠ 0x00
          ∨ regs LM90_REG_R_CONVRATE > 0x0A) := ⟨hkind, hgate⟩
      simp only [hfun, not_true_eq_false, if_false, i2c_smbus_read_byte_data, regFile,
        u8_natCast _ (hbytes _), hg, if_true]
      refine ⟨?_, ?_, ?_, ?_, Or.inr ?_⟩ <;> simp
  · simp only [hfun, not_false_eq_true, if_true]
    refine ⟨?_, ?_, ?_, ?_, Or.inl ?_⟩ <;> simp

/-- Witness of C10: configuration register 0x02 under generic detection, with
an ADM1032 signature in the identification registers. -/
theorem C10_detection_gate_witness :
    (∀ r, regs_gate_fail r < 256) ∧ (-1 : Int) < 0
    ∧ (regs_gate_fail LM90_REG_R_CONFIG1 &&& 0x2A ≠ 0
        ∨ 0x0A < regs_gate_fail LM90_REG_R_CONVRATE)
    ∧ (lm90_detect host_ok (regFile regs_gate_fail) [] 0 (-1)).client = none
    ∧ (lm90_detect host_ok (regFile regs_gate_fail) [] 0 (-1)).type_name = ""
    ∧ (lm90_detect host_ok (regFile regs_gate_fail) [] 0 (-1)).kind = -1
    ∧ (lm90_detect host_ok (regFile regs_gate_fail) [] 0 (-1)).lm90_id = 0
    ∧ ((lm90_detect host_ok (regFile regs_gate_fail) [] 0 (-1)).log = []
        ∨ (lm90_detect host_ok (regFile regs_gate_fail) [] 0 (-1)).log
            = [] ++ [BusOp.read LM90_REG_R_CONFIG1 (regs_gate_fail LM90_REG_R_CONFIG1),
                BusOp.read LM90_REG_R_CONVRATE (regs_gate_fail LM90_REG_R_CONVRATE)]) :=
  ⟨regs_gate_fail_bytes, by decide, Or.inl (by decide),
    C10_detection_gate host_ok regs_gate_fail [] 0 (-1) regs_gate_fail_bytes (by decide)
      (Or.inl (by decide))⟩

/-- C12. Hysteresis clamp: `HYST_TO_REG(v)` is 0 for `v < 0`, 31 for `v > 31` and
`v` itself in between; and a write through `lm90_hyst` that carries a value
stores the clamped value in the cache, sends exactly that value to register
0x21 in one write, and the value is at most 31. -/
theorem C12_hysteresis_clamp (K : Kernel) (bus : Bus) (jiffies : Nat) (client : Client)
    (nrels_mag : Int) (results : Nat → Int) (v : Int) :
    (v < 0 → HYST_TO_REG v = 0)
    ∧ (31 < v → HYST_TO_REG v = 31)
    ∧ (0 ≤ v → v ≤ 31 → HYST_TO_REG v = v)
    ∧ (1 ≤ nrels_mag →
        ((lm90_hyst K bus jiffies client SENSORS_PROC_REAL_WRITE nrels_mag results).client.data.hyst
            : Int) = HYST_TO_REG (results 0)
        ∧ (lm90_hyst K bus jiffies client SENSORS_PROC_REAL_WRITE nrels_mag results).client.data.hyst
            ≤ 31
        ∧ (lm90_hyst K bus jiffies client SENSORS_PROC_REAL_WRITE nrels_mag results).client.log
            = client.log ++ [BusOp.write LM90_REG_W_TCRIT_HYST
                (lm90_hyst K bus jiffies client SENSORS_PROC_REAL_WRITE nrels_mag
                  results).client.data.hyst]) := by
  refine ⟨?_, ?_, ?_, ?_⟩
  · intro h; unfold HYST_TO_REG; simp [h]
  · intro h; unfold HYST_TO_REG
    have : ¬ v < 0 := by omega
    simp [this, h]
  · intro h1 h2; unfold HYST_TO_REG
    have a : ¬ v < 0 := by omega
    have b : ¬ v > 31 := by omega
    simp [a, b]
  · intro hn
    have h1 : SENSORS_PROC_REAL_WRITE ≠ SENSORS_PROC_REAL_INFO := by decide
    have h2 : SENSORS_PROC_REAL_WRITE ≠ SENSORS_PROC_REAL_READ := by decide
    have hb : 0 ≤ HYST_TO_REG (results 0) ∧ HYST_TO_REG (results 0) ≤ 31 := by
      unfold HYST_TO_REG
      split_ifs <;> omega
    have hu : ((u8 (HYST_TO_REG (results 0)) : Nat) : Int) = HYST_TO_REG (results 0) := by
      unfold u8; omega
    have hl : u8 (HYST_TO_REG (results 0)) ≤ 31 := by
      unfold u8; omega
    unfold lm90_hyst
    simp only [h1, h2, if_false, if_true, ge_iff_le, hn, i2c_smbus_write_byte_data]
    refine ⟨hu, hl, ?_⟩
    rw [hu]

/-- Witness of C12: a write of 40 degrees is stored and sent as 31. -/
theorem C12_hysteresis_clamp_witness :
    (31 : Int) < 40 ∧ HYST_TO_REG 40 = 31 ∧ (1 : Int) ≤ 1
    ∧ ((lm90_hyst kernel_100 torn_bus 5 ⟨blank_data, []⟩ SENSORS_PROC_REAL_WRITE 1
          (fun _ => 40)).client.data.hyst : Int) = HYST_TO_REG ((fun _ : Nat => (40 : Int)) 0)
    ∧ (lm90_hyst kernel_100 torn_bus 5 ⟨blank_data, []⟩ SENSORS_PROC_REAL_WRITE 1
          (fun _ => 40)).client.data.hyst ≤ 31
    ∧ (lm90_hyst kernel_100 torn_bus 5 ⟨blank_data, []⟩ SENSORS_PROC_REAL_WRITE 1
          (fun _ => 40)).client.log
        = [] ++ [BusOp.write LM90_REG_W_TCRIT_HYST
            (lm90_hyst kernel_100 torn_bus 5 ⟨blank_data, []⟩ SENSORS_PROC_REAL_WRITE 1
              (fun _ => 40)).client.data.hyst] :=
  ⟨by decide,
    (C12_hysteresis_clamp kernel_100 torn_bus 5 ⟨blank_data, []⟩ 1 (fun _ => 40) 40).2.1
      (by decide),
    by decide,
    (C12_hysteresis_clamp kernel_100 torn_bus 5 ⟨blank_data, []⟩ 1 (fun _ => 40) 40).2.2.2
      (by decide)⟩

/-- The effect of a write through `lm90_local_temp`, by the number of values
supplied. -/
theorem local_temp_write (K : Kernel) (bus : Bus) (jiffies : Nat) (client : Client)
    (nrels_mag : Int) (results : Nat → Int) :
    (lm90_local_temp K bus jiffies client SENSORS_PROC_REAL_WRITE nrels_mag results).client
      = if 2 ≤ nrels_mag then
          { data := { client.data with
                local_high := u8 (TEMP1_TO_REG (results 0))
                local_low := u8 (TEMP1_TO_REG (results 1)) }
            log := client.log ++
              [BusOp.write LM90_REG_W_LOCAL_HIGH (u8 (TEMP1_TO_REG (results 0))),
               BusOp.write LM90_REG_W_LOCAL_LOW (u8 (TEMP1_TO_REG (results 1)))] }
        else if 1 ≤ nrels_mag then
          { data := { client.data with local_high := u8 (TEMP1_TO_REG (results 0)) }
            log := client.log ++
              [BusOp.write LM90_REG_W_LOCAL_HIGH (u8 (TEMP1_TO_REG (results 0)))] }
        else client := by
  have h1 : SENSORS_PROC_REAL_WRITE ≠ SENSORS_PROC_REAL_INFO := by decide
  have h2 : SENSORS_PROC_REAL_WRITE ≠ SENSORS_PROC_REAL_READ := by decide
  have hu : ∀ x : Int, u8 ((u8 x : Nat) : Int) = u8 x := fun x => u8_natCast _ (u8_lt x)
  unfold lm90_local_temp
  simp only [h1, h2, if_false, if_true, ge_iff_le, i2c_smbus_write_byte_data, hu]
  by_cases c2 : (2 : Int) ≤ nrels_mag
  · have c1 : (1 : Int) ≤ nrels_mag := by omega
    simp [c1, c2]
  · by_cases c1 : (1 : Int) ≤ nrels_mag
    · simp [c1, c2]
    · simp [c1, c2]

/-- The two bytes of a 16-bit value pass through the `u8` parameter of a bus
write unchanged. -/
theorem u8_split (e : Nat) (h : e < 65536) :
    u8 ((e >>> 8 : Nat) : Int) = e >>> 8 ∧ u8 ((e &&& 0xFF : Nat) : Int) = e &&& 0xFF := by
  constructor
  · apply u8_natCast
    rw [Nat.shiftRight_eq_div_pow]
    omega
  · exact u8_natCast _ (lt_of_le_of_lt Nat.and_le_right (by norm_num))

/-- The effect of a write through `lm90_remote_temp`, by the number of values
supplied. -/
theorem remote_temp_write_shape (K : Kernel) (bus : Bus) (jiffies : Nat) (client : Client)
    (nrels_mag : Int) (results : Nat → Int) :
    (lm90_remote_temp K bus jiffies client SENSORS_PROC_REAL_WRITE nrels_mag results).client
      = if 2 ≤ nrels_mag then
          { data := { client.data with
                remote_high := u16 (TEMP2_TO_REG K (results 0))
                remote_low := u16 (TEMP2_TO_REG K (results 1)) }
            log := client.log ++
              [BusOp.write LM90_REG_W_REMOTE_HIGHH (u16 (TEMP2_TO_REG K (results 0)) >>> 8),
               BusOp.write LM90_REG_W_REMOTE_HIGHL (u16 (TEMP2_TO_REG K (results 0)) &&& 0xFF),
               BusOp.write LM90_REG_W_REMOTE_LOWH (u16 (TEMP2_TO_REG K (results 1)) >>> 8),
               BusOp.write LM90_REG_W_REMOTE_LOWL (u16 (TEMP2_TO_REG K (results 1)) &&& 0xFF)] }
        else if 1 ≤ nrels_mag then
          { data := { client.data with remote_high := u16 (TEMP2_TO_REG K (results 0)) }
            log := client.log ++
              [BusOp.write LM90_REG_W_REMOTE_HIGHH (u16 (TEMP2_TO_REG K (results 0)) >>> 8),
               BusOp.write LM90_REG_W_REMOTE_HIGHL (u16 (TEMP2_TO_REG K (results 0)) &&& 0xFF)] }
        else client := by
  have h1 : SENSORS_PROC_REAL_WRITE ≠ SENSORS_PROC_REAL_INFO := by decide
  have h2 : SENSORS_PROC_REAL_WRITE ≠ SENSORS_PROC_REAL_READ := by decide
  have s0 := u8_split _ (u16_lt (TEMP2_TO_REG K (results 0)))
  have s1 := u8_split _ (u16_lt (TEMP2_TO_REG K (results 1)))
  unfold lm90_remote_temp
  simp only [h1, h2, if_false, if_true, ge_iff_le, i2c_smbus_write_byte_data, s0.1, s0.2,
    s1.1, s1.2]
  by_cases c2 : (2 : Int) ≤ nrels_mag
  · have c1 : (1 : Int) ≤ nrels_mag := by omega
    simp [c1, c2]
  · by_cases c1 : (1 : Int) ≤ nrels_mag
    · simp [c1, c2]
    · simp [c1, c2]

/-- Counterexample to C13 as stated.  On a cache holding the limits 70 and 5, no
write through `lm90_local_temp` sends a value to the low-limit register
without also sending one to the high-limit register; the write that carries
the low limit 10 as its second value, with 0 in the first place, replaces the
cached high limit 70 by 0 and writes the high-limit register first. -/
theorem C13_no_low_only_write :
    limits_data.local_high = 70
    ∧ (lm90_local_temp kernel_100 torn_bus 5 ⟨limits_data, []⟩ SENSORS_PROC_REAL_WRITE 2
          (fun i => if i = 1 then 10 else 0)).client.data.local_high = 0
    ∧ (lm90_local_temp kernel_100 torn_bus 5 ⟨limits_data, []⟩ SENSORS_PROC_REAL_WRITE 2
          (fun i => if i = 1 then 10 else 0)).client.log
        = [BusOp.write LM90_REG_W_LOCAL_HIGH 0, BusOp.write LM90_REG_W_LOCAL_LOW 10]
    ∧ ¬ ∃ (nrels_mag : Int) (results : Nat → Int),
        (∃ v, BusOp.write LM90_REG_W_LOCAL_LOW v ∈
          (lm90_local_temp kernel_100 torn_bus 5 ⟨limits_data, []⟩ SENSORS_PROC_REAL_WRITE
            nrels_mag results).client.log)
        ∧ ∀ v, BusOp.write LM90_REG_W_LOCAL_HIGH v ∉
          (lm90_local_temp kernel_100 torn_bus 5 ⟨limits_data, []⟩ SENSORS_PROC_REAL_WRITE
            nrels_mag results).client.log := by
  refine ⟨by decide, by decide, by decide, ?_⟩
  rintro ⟨n, r, ⟨v, hv⟩, hno⟩
  rw [local_temp_write] at hv hno
  by_cases c2 : (2 : Int) ≤ n
  · simp only [c2, if_true] at hno
    exact hno (u8 (TEMP1_TO_REG (r 0))) (by simp)
  · by_cases c1 : (1 : Int) ≤ n
    · simp only [c2, c1, if_false, if_true] at hv
      simp [LM90_REG_W_LOCAL_LOW, LM90_REG_W_LOCAL_HIGH] at hv
    · simp only [c2, c1, if_false] at hv
      simp at hv

/-- C13 (as amended). Limit writes are positional, for the local and the remote
channel and every cache state.  A write that supplies one value sets the high
limit only: the cached high limit and the high-limit register(s) are written,
the cached low limit and every other field stay as they were.  A write that
supplies two values or more sets the high limit from the first and then the
low limit from the second.  A write that supplies no value changes nothing. -/
theorem C13_partial_limit_writes (K : Kernel) (bus : Bus) (jiffies : Nat) (client : Client)
    (nrels_mag : Int) (results : Nat → Int) :
    (nrels_mag = 1 →
      (lm90_local_temp K bus jiffies client SENSORS_PROC_REAL_WRITE nrels_mag results).client
        = { data := { client.data with local_high := u8 (TEMP1_TO_REG (results 0)) }
            log := client.log ++
              [BusOp.write LM90_REG_W_LOCAL_HIGH (u8 (TEMP1_TO_REG (results 0)))] }
      ∧ (lm90_remote_temp K bus jiffies client SENSORS_PROC_REAL_WRITE nrels_mag results).client
        = { data := { client.data with remote_high := u16 (TEMP2_TO_REG K (results 0)) }
            log := client.log ++
              [BusOp.write LM90_REG_W_REMOTE_HIGHH (u16 (TEMP2_TO_REG K (results 0)) >>> 8),
               BusOp.write LM90_REG_W_REMOTE_HIGHL
                 (u16 (TEMP2_TO_REG K (results 0)) &&& 0xFF)] })
    ∧ (2 ≤ nrels_mag →
      (lm90_local_temp K bus jiffies client SENSORS_PROC_REAL_WRITE nrels_mag results).client
        = { data := { client.data with
                local_high := u8 (TEMP1_TO_REG (results 0))
                local_low := u8 (TEMP1_TO_REG (results 1)) }
            log := client.log ++
              [BusOp.write LM90_REG_W_LOCAL_HIGH (u8 (TEMP1_TO_REG (results 0))),
               BusOp.write LM90_REG_W_LOCAL_LOW (u8 (TEMP1_TO_REG (results 1)))] }
      ∧ (lm90_remote_temp K bus jiffies client SENSORS_PROC_REAL_WRITE nrels_mag results).client
        = { data := { client.data with
                remote_high := u16 (TEMP2_TO_REG K (results 0))
                remote_low := u16 (TEMP2_TO_REG K (results 1)) }
            log := client.log ++
              [BusOp.write LM90_REG_W_REMOTE_HIGHH (u16 (TEMP2_TO_REG K (results 0)) >>> 8),
               BusOp.write LM90_REG_W_REMOTE_HIGHL (u16 (TEMP2_TO_REG K (results 0)) &&& 0xFF),
               BusOp.write LM90_REG_W_REMOTE_LOWH (u16 (TEMP2_TO_REG K (results 1)) >>> 8),
               BusOp.write LM90_REG_W_REMOTE_LOWL
                 (u16 (TEMP2_TO_REG K (results 1)) &&& 0xFF)] })
    ∧ (nrels_mag ≤ 0 →
      (lm90_local_temp K bus jiffies client SENSORS_PROC_REAL_WRITE nrels_mag results).client
        = client
      ∧ (lm90_remote_temp K bus jiffies client SENSORS_PROC_REAL_WRITE nrels_mag results).client
        = client) := by
  rw [local_temp_write, remote_temp_write_shape]
  refine ⟨?_, ?_, ?_⟩
  · intro h
    subst h
    simp
  · intro h
    simp [h]
  · intro h
    have c2 : ¬ (2 : Int) ≤ nrels_mag := by omega
    have c1 : ¬ (1 : Int) ≤ nrels_mag := by omega
    simp [c1, c2]

/-- Witness of C13 (as amended): one value (high 60) and two values (high 60,
low 10) written on a cache holding the limits 70 and 5. -/
theorem C13_partial_limit_writes_witness :
    (1 : Int) = 1
    ∧ (
      (lm90_local_temp kernel_100 torn_bus 5 ⟨limits_data, []⟩ SENSORS_PROC_REAL_WRITE 1 limit_values).client
        = { data := { limits_data with local_high := u8 (TEMP1_TO_REG (limit_values 0)) }
            log := [] ++
              [BusOp.write LM90_REG_W_LOCAL_HIGH (u8 (TEMP1_TO_REG (limit_values 0)))] }
      ∧ (lm90_remote_temp kernel_100 torn_bus 5 ⟨limits_data, []⟩ SENSORS_PROC_REAL_WRITE 1 limit_values).client
        = { data := { limits_data with remote_high := u16 (TEMP2_TO_REG kernel_100 (limit_values 0)) }
            log := [] ++
              [BusOp.write LM90_REG_W_REMOTE_HIGHH (u16 (TEMP2_TO_REG kernel_100 (limit_values 0)) >>> 8),
               BusOp.write LM90_REG_W_REMOTE_HIGHL
                 (u16 (TEMP2_TO_REG kernel_100 (limit_values 0)) &&& 0xFF)] })
    ∧ (2 : Int) ≤ 2
    ∧ (
      (lm90_local_temp kernel_100 torn_bus 5 ⟨limits_data, []⟩ SENSORS_PROC_REAL_WRITE 2 limit_values).client
        = { data := { limits_data with
                local_high := u8 (TEMP1_TO_REG (limit_values 0))
                local_low := u8 (TEMP1_TO_REG (limit_values 1)) }
            log := [] ++
              [BusOp.write LM90_REG_W_LOCAL_HIGH (u8 (TEMP1_TO_REG (limit_values 0))),
               BusOp.write LM90_REG_W_LOCAL_LOW (u8 (TEMP1_TO_REG (limit_values 1)))] }
      ∧ (lm90_remote_temp kernel_100 torn_bus 5 ⟨limits_data, []⟩ SENSORS_PROC_REAL_WRITE 2 limit_values).client
        = { data := { limits_data with
                remote_high := u16 (TEMP2_TO_REG kernel_100 (limit_values 0))
                remote_low := u16 (TEMP2_TO_REG kernel_100 (limit_values 1)) }
            log := [] ++
              [BusOp.write LM90_REG_W_REMOTE_HIGHH (u16 (TEMP2_TO_REG kernel_100 (limit_values 0)) >>> 8),
               BusOp.write LM90_REG_W_REMOTE_HIGHL (u16 (TEMP2_TO_REG kernel_100 (limit_values 0)) &&& 0xFF),
               BusOp.write LM90_REG_W_REMOTE_LOWH (u16 (TEMP2_TO_REG kernel_100 (limit_values 1)) >>> 8),
               BusOp.write LM90_REG_W_REMOTE_LOWL
                 (u16 (TEMP2_TO_REG kernel_100 (limit_values 1)) &&& 0xFF)] }) :=
  ⟨rfl,
    (C13_partial_limit_writes kernel_100 torn_bus 5 ⟨limits_data, []⟩ 1 limit_values).1 rfl,
    by decide,
    (C13_partial_limit_writes kernel_100 torn_bus 5 ⟨limits_data, []⟩ 2 limit_values).2.1
      (by decide)⟩

/-- C14. Initialization defaults: for every bus and client, `lm90_init_client`
first issues exactly ten writes, in order local high 70, local low 5, local
critical 85, remote high (high byte 70, low byte 0), remote low (high byte 5,
low byte 0), remote critical 85, critical hysteresis 10 and conversion rate 5;
what follows is the read of the configuration register and at most a write to
the configuration register, so no other limit value is written, and the cached
data is not touched. -/
theorem C14_initialization_defaults (bus : Bus) (client : Client) :
    ∃ tail : List BusOp,
      (lm90_init_client bus client).log
        = client.log ++
            ([BusOp.write LM90_REG_W_LOCAL_HIGH 70, BusOp.write LM90_REG_W_LOCAL_LOW 5,
              BusOp.write LM90_REG_W_LOCAL_CRIT 85, BusOp.write LM90_REG_W_REMOTE_HIGHH 70,
              BusOp.write LM90_REG_W_REMOTE_HIGHL 0, BusOp.write LM90_REG_W_REMOTE_LOWH 5,
              BusOp.write LM90_REG_W_REMOTE_LOWL 0, BusOp.write LM90_REG_W_REMOTE_CRIT 85,
              BusOp.write LM90_REG_W_TCRIT_HYST 10, BusOp.write LM90_REG_W_CONVRATE 5]
            ++ tail)
      ∧ (∀ op ∈ tail, op.reg = LM90_REG_R_CONFIG1 ∨ op.reg = LM90_REG_W_CONFIG1)
      ∧ (lm90_init_client bus client).data = client.data := by
  obtain ⟨config, e⟩ := init_client_shape bus client
  rw [e]
  refine ⟨[BusOp.read LM90_REG_R_CONFIG1 config] ++ (if u8 config &&& 0x40 ≠ 0
      then [BusOp.write LM90_REG_W_CONFIG1 (u8 config &&& 0xBF)] else []), ?_, ?_, rfl⟩
  · simp only [List.append_assoc, List.singleton_append, List.cons_append, List.nil_append]
  · intro op hop
    by_cases hc : u8 config &&& 0x40 = 0
    · simp [hc] at hop
      subst hop
      exact Or.inl rfl
    · simp [hc] at hop
      rcases hop with h | h
      · subst h; exact Or.inl rfl
      · subst h; exact Or.inr rfl

/-- C16. Remote decode rounds to nearest: for every 16-bit register value `r`,
with `s` its two's-complement value, `TEMP2_FROM_REG(r)` equals
`⌊(10 s + 128) / 256⌋` and lies within one half of the true number of tenths
`10 s / 256`, for negative `s` as for the others. -/
theorem C16_remote_decode_rounds_to_nearest (r : Nat) (hr : r < 65536) :
    TEMP2_FROM_REG (r : Int) = (10 * signed16 r + 128) / 256
    ∧ |256 * TEMP2_FROM_REG (r : Int) - 10 * signed16 r| ≤ 128
    ∧ |((TEMP2_FROM_REG (r : Int) : Int) : ℚ) - 10 * (signed16 r : ℚ) / 256| ≤ 1 / 2 := by
  have h1 : TEMP2_FROM_REG (r : Int) = (10 * signed16 r + 128) / 256 := by
    rw [TEMP2_FROM_REG_natCast r hr]
    unfold signed16
    split_ifs <;> omega
  have h2 : |256 * TEMP2_FROM_REG (r : Int) - 10 * signed16 r| ≤ 128 := by
    rw [h1, abs_le]
    constructor <;> omega
  refine ⟨h1, h2, ?_⟩
  rw [abs_le] at h2 ⊢
  obtain ⟨ha, hb⟩ := h2
  have ha' : (-128 : ℚ) ≤ 256 * (TEMP2_FROM_REG (r : Int) : ℚ) - 10 * (signed16 r : ℚ) := by
    exact_mod_cast ha
  have hb' : 256 * (TEMP2_FROM_REG (r : Int) : ℚ) - 10 * (signed16 r : ℚ) ≤ 128 := by
    exact_mod_cast hb
  constructor <;> linarith

/-- Witness of C16 at the register value 0xFFA0 (-96, that is -0.375 degrees). -/
theorem C16_remote_decode_rounds_to_nearest_witness :
    0xFFA0 < 65536
    ∧ TEMP2_FROM_REG ((0xFFA0 : Nat) : Int) = (10 * signed16 0xFFA0 + 128) / 256
    ∧ |256 * TEMP2_FROM_REG ((0xFFA0 : Nat) : Int) - 10 * signed16 0xFFA0| ≤ 128
    ∧ |((TEMP2_FROM_REG ((0xFFA0 : Nat) : Int) : Int) : ℚ) - 10 * (signed16 0xFFA0 : ℚ) / 256|
        ≤ 1 / 2 :=
  ⟨by decide, C16_remote_decode_rounds_to_nearest 0xFFA0 (by decide)⟩

/-- C17. Local encode wraps out-of-range input: for every integer `d`, the byte
that `TEMP1_TO_REG(d)` leaves in a `u8` field is `d mod 256`; decoding it gives
the one integer of [-128, 127] congruent to `d` modulo 256; and a write
through `lm90_local_temp` stores and sends that byte for the high limit (and
for the low limit when a second value is supplied) whatever the value is. -/
theorem C17_local_encode_wraps (K : Kernel) (bus : Bus) (jiffies : Nat) (client : Client)
    (nrels_mag : Int) (results : Nat → Int) (d : Int) (hn : 1 ≤ nrels_mag) :
    ((u8 (TEMP1_TO_REG d) : Nat) : Int) = d % 256
    ∧ (-128 ≤ TEMP1_FROM_REG (u8 (TEMP1_TO_REG d)) ∧ TEMP1_FROM_REG (u8 (TEMP1_TO_REG d)) ≤ 127
        ∧ (TEMP1_FROM_REG (u8 (TEMP1_TO_REG d)) - d) % 256 = 0)
    ∧ (∀ y : Int, -128 ≤ y → y ≤ 127 → (y - d) % 256 = 0 →
        y = TEMP1_FROM_REG (u8 (TEMP1_TO_REG d)))
    ∧ (((lm90_local_temp K bus jiffies client SENSORS_PROC_REAL_WRITE nrels_mag
            results).client.data.local_high : Nat) : Int) = results 0 % 256
    ∧ BusOp.write LM90_REG_W_LOCAL_HIGH
        (lm90_local_temp K bus jiffies client SENSORS_PROC_REAL_WRITE nrels_mag
          results).client.data.local_high
        ∈ (lm90_local_temp K bus jiffies client SENSORS_PROC_REAL_WRITE nrels_mag
          results).client.log
    ∧ (2 ≤ nrels_mag →
        (((lm90_local_temp K bus jiffies client SENSORS_PROC_REAL_WRITE nrels_mag
            results).client.data.local_low : Nat) : Int) = results 1 % 256
        ∧ BusOp.write LM90_REG_W_LOCAL_LOW
            (lm90_local_temp K bus jiffies client SENSORS_PROC_REAL_WRITE nrels_mag
              results).client.data.local_low
            ∈ (lm90_local_temp K bus jiffies client SENSORS_PROC_REAL_WRITE nrels_mag
              results).client.log) := by
  have hw : ∀ x : Int, ((u8 (TEMP1_TO_REG x) : Nat) : Int) = x % 256 := by
    intro x
    unfold u8 TEMP1_TO_REG
    split_ifs <;> omega
  have hdec : TEMP1_FROM_REG (u8 (TEMP1_TO_REG d))
      = if 128 ≤ d % 256 then d % 256 - 256 else d % 256 := by
    rw [TEMP1_FROM_REG_natCast _ (u8_lt _), hw d]
    have : (128 ≤ u8 (TEMP1_TO_REG d)) ↔ (128 : Int) ≤ d % 256 := by
      rw [← hw d]; omega
    by_cases h : (128 : Int) ≤ d % 256
    · rw [if_pos (this.mpr h), if_pos h]
    · rw [if_neg (fun h2 => h (this.mp h2)), if_neg h]
  rw [local_temp_write]
  refine ⟨hw d, ?_, ?_, ?_, ?_, ?_⟩
  · rw [hdec]
    split_ifs <;> omega
  · intro y h1 h2 h3
    rw [hdec]
    split_ifs <;> omega
  · by_cases c2 : (2 : Int) ≤ nrels_mag
    · simp only [c2, if_true]
      exact hw _
    · simp only [c2, hn, if_false, if_true]
      exact hw _
  · by_cases c2 : (2 : Int) ≤ nrels_mag
    · simp [c2]
    · simp [c2, hn]
  · intro c2
    simp only [c2, if_true]
    exact ⟨hw _, by simp⟩

/-- Witness of C17: the values 200 and -300 written as high and low limit. -/
theorem C17_local_encode_wraps_witness :
    (1 : Int) ≤ 2 ∧ (2 : Int) ≤ 2
    ∧ ((u8 (TEMP1_TO_REG 200) : Nat) : Int) = 200 % 256
    ∧ TEMP1_FROM_REG (u8 (TEMP1_TO_REG 200)) = -56
    ∧ (((lm90_local_temp kernel_100 torn_bus 5 ⟨limits_data, []⟩ SENSORS_PROC_REAL_WRITE 2
          (fun i => if i = 1 then -300 else 200)).client.data.local_high : Nat) : Int)
        = (fun i : Nat => if i = 1 then (-300 : Int) else 200) 0 % 256
    ∧ (((lm90_local_temp kernel_100 torn_bus 5 ⟨limits_data, []⟩ SENSORS_PROC_REAL_WRITE 2
          (fun i => if i = 1 then -300 else 200)).client.data.local_low : Nat) : Int)
        = (fun i : Nat => if i = 1 then (-300 : Int) else 200) 1 % 256 :=
  ⟨by decide, by decide,
    (C17_local_encode_wraps kernel_100 torn_bus 5 ⟨limits_data, []⟩ 2
      (fun i => if i = 1 then -300 else 200) 200 (by decide)).1,
    by decide,
    (C17_local_encode_wraps kernel_100 torn_bus 5 ⟨limits_data, []⟩ 2
      (fun i => if i = 1 then -300 else 200) 200 (by decide)).2.2.2.1,
    ((C17_local_encode_wraps kernel_100 torn_bus 5 ⟨limits_data, []⟩ 2
      (fun i => if i = 1 then -300 else 200) 200 (by decide)).2.2.2.2.2 (by decide)).1⟩

/-- The stored encoding of a tenths value of the remote range, read as a
two's-complement number. -/
theorem signed16_TEMP2_TO_REG (K : Kernel) (t : Int) (hlo : -1280 ≤ t) (hhi : t ≤ 1279) :
    signed16 (u16 (TEMP2_TO_REG K t)) = 32 * (4 * t / 5) := by
  rw [TEMP2_TO_REG_range K t hlo hhi]
  unfold signed16 u16
  have h5 : t % 5 = 0 ∨ t % 5 = 1 ∨ t % 5 = 2 ∨ t % 5 = 3 ∨ t % 5 = 4 := by omega
  rcases h5 with h5 | h5 | h5 | h5 | h5 <;> split_ifs <;> omega

/-- C19. Closed form of the remote encoder: for every tenths value `t` with
`-1280 ≤ t ≤ 1279`, the stored 16-bit encoding read as a two's-complement
number is `32 * ⌊4 t / 5⌋` (floor, for negative `t` too); hence the encoder
is monotone on that range, and for `t` a multiple of 5 the register holds
`t` tenths exactly (`256 t / 10`) and decodes to `t`. -/
theorem C19_remote_encoder_closed_form (K : Kernel) (t u : Int) (hlo : -1280 ≤ t) (hhi : t ≤ 1279)
    (hlo2 : -1280 ≤ u) (hhi2 : u ≤ 1279) :
    signed16 (u16 (TEMP2_TO_REG K t)) = 32 * ⌊(4 * (t : ℚ)) / 5⌋
    ∧ signed16 (u16 (TEMP2_TO_REG K t)) = 32 * (4 * t / 5)
    ∧ (t ≤ u → signed16 (u16 (TEMP2_TO_REG K t)) ≤ signed16 (u16 (TEMP2_TO_REG K u)))
    ∧ (5 ∣ t → 10 * signed16 (u16 (TEMP2_TO_REG K t)) = 256 * t
        ∧ TEMP2_FROM_REG (u16 (TEMP2_TO_REG K t)) = t) := by
  have e1 := signed16_TEMP2_TO_REG K t hlo hhi
  have e2 := signed16_TEMP2_TO_REG K u hlo2 hhi2
  have hfloor : ⌊(4 * (t : ℚ)) / 5⌋ = 4 * t / 5 := by
    have := Rat.floor_intCast_div_natCast (4 * t) 5
    push_cast at this
    exact this
  refine ⟨by rw [e1, hfloor], e1, ?_, ?_⟩
  · intro h
    rw [e1, e2]
    omega
  · intro h
    refine ⟨by rw [e1]; omega, ?_⟩
    rw [TEMP2_roundtrip K t hlo hhi]
    have : ¬ (t % 5 = 1 ∨ t % 5 = 2) := by omega
    rw [if_neg this]

/-- Witness of C19 at -0.7 degrees and -0.5 degrees. -/
theorem C19_remote_encoder_closed_form_witness :
    (-1280 : Int) ≤ -5 ∧ (-5 : Int) ≤ 1279 ∧ (-1280 : Int) ≤ -7 ∧ (-7 : Int) ≤ 1279
    ∧ (-7 : Int) ≤ -5 ∧ (5 : Int) ∣ -5
    ∧ signed16 (u16 (TEMP2_TO_REG kernel_100 (-7))) = 32 * (4 * (-7) / 5)
    ∧ signed16 (u16 (TEMP2_TO_REG kernel_100 (-7))) ≤ signed16 (u16 (TEMP2_TO_REG kernel_100 (-5)))
    ∧ 10 * signed16 (u16 (TEMP2_TO_REG kernel_100 (-5))) = 256 * (-5)
    ∧ TEMP2_FROM_REG (u16 (TEMP2_TO_REG kernel_100 (-5))) = -5 :=
  ⟨by decide, by decide, by decide, by decide, by decide, by decide,
    (C19_remote_encoder_closed_form kernel_100 (-7) (-5) (by decide) (by decide) (by decide)
      (by decide)).2.1,
    (C19_remote_encoder_closed_form kernel_100 (-7) (-5) (by decide) (by decide) (by decide)
      (by decide)).2.2.1 (by decide),
    ((C19_remote_encoder_closed_form kernel_100 (-5) (-5) (by decide) (by decide) (by decide)
      (by decide)).2.2.2 (by decide)).1,
    ((C19_remote_encoder_closed_form kernel_100 (-5) (-5) (by decide) (by decide) (by decide)
      (by decide)).2.2.2 (by decide)).2⟩

end LM90
